import Mathlib

/-!
Shallow embedding of the particle-engine subsystem of the states-of-matter
molecular-dynamics simulator, together with proofs about the claims made by
its natural-language specification.

JavaScript numbers are embedded as exact rationals (`ℚ`).  The handful of
operations whose exact value is irrational (`Math.sqrt`, `Math.cos`,
`Math.sin`, `Math.pow` with fractional exponent, `Math.PI`) and the ambient
random-number generator are threaded through as oracle parameters, so every
definition stays executable; the one place where a claim is *about* the real
square root (the velocity-magnitude cap) is additionally stated over `ℝ`
with `Real.sqrt` by instantiating the generic definition.
-/

namespace StatesOfMatter

/-- Two-dimensional vector with named components, mirroring DOT/Vector2 as
used by the model code (only the operations the model uses are defined). -/
structure Vec2 (K : Type) where
  x : K
  y : K
  deriving Repr, DecidableEq

namespace Vec2

variable {K : Type} [Field K]

/-- Vector2.addXY from the source: componentwise addition of two scalars. -/
def addXY (v : Vec2 K) (dx dy : K) : Vec2 K := ⟨v.x + dx, v.y + dy⟩

/-- Vector2.subtractXY from the source: componentwise subtraction. -/
def subtractXY (v : Vec2 K) (dx dy : K) : Vec2 K := ⟨v.x - dx, v.y - dy⟩

/-- Squared Euclidean magnitude of the vector. -/
def mag2 (v : Vec2 K) : K := v.x * v.x + v.y * v.y

/-- Sum of a list of vectors, used to state Newton's-third-law bookkeeping. -/
def sumList (l : List (Vec2 K)) : Vec2 K :=
  ⟨(l.map x).sum, (l.map y).sum⟩

end Vec2

/-- Update the element of `l` at index `k` with `g`, leaving the list
unchanged when `k` is out of range.  This models in-place mutation of one
slot of a JavaScript array. -/
def updAt {α : Type} (l : List α) (k : ℕ) (g : α → α) : List α :=
  match l, k with
  | [], _ => []
  | a :: as, 0 => g a :: as
  | a :: as, k + 1 => a :: updAt as k g

/-! ### Monatomic Verlet algorithm: pairwise interaction forces

Translated from MonatomicVerletAlgorithm.updateInteractionForces and the
constants it inherits from AbstractVerletAlgorithm. -/

/-- PARTICLE_INTERACTION_DISTANCE_THRESH_SQRD from AbstractVerletAlgorithm. -/
def PARTICLE_INTERACTION_DISTANCE_THRESH_SQRD : ℚ := 6.25

/-- MIN_DISTANCE_SQUARED from AbstractVerletAlgorithm: floor applied to the
squared distance used in the Lennard-Jones calculation. -/
def MIN_DISTANCE_SQUARED : ℚ := 0.90

/-- Squared distance between two particles after the `Math.max` floor
applied in updateInteractionForces (line `distanceSqrd = Math.max(...)`). -/
def flooredDistanceSqrd (dx dy : ℚ) : ℚ :=
  max (dx * dx + dy * dy) MIN_DISTANCE_SQUARED

/-- One unordered pair's Lennard-Jones force contribution, translated from
the body of the inner loop of MonatomicVerletAlgorithm.updateInteractionForces,
including the (claimed unreachable) coincident-particle special case that
reassigns `dx = 1, dy = 1, distanceSqrd = 2`. -/
def ljPairForce (epsilon : ℚ) (pI pJ : Vec2 ℚ) : Vec2 ℚ :=
  let dx0 := pI.x - pJ.x
  let dy0 := pI.y - pJ.y
  let d0 := flooredDistanceSqrd dx0 dy0
  -- the special case where the particles are right on top of each other
  let dx := if d0 = 0 then 1 else dx0
  let dy := if d0 = 0 then 1 else dy0
  let distanceSqrd := if d0 = 0 then 2 else d0
  if distanceSqrd < PARTICLE_INTERACTION_DISTANCE_THRESH_SQRD then
    let r2inv := 1 / distanceSqrd
    let r6inv := r2inv * r2inv * r2inv
    let forceScalar := 48 * r2inv * r6inv * (r6inv - 0.5) * epsilon
    ⟨dx * forceScalar, dy * forceScalar⟩
  else ⟨0, 0⟩

/-- Variant of `ljPairForce` with the coincident-particle special-case branch
removed, used to state that the branch is unreachable. -/
def ljPairForceNoSpecialCase (epsilon : ℚ) (pI pJ : Vec2 ℚ) : Vec2 ℚ :=
  let dx := pI.x - pJ.x
  let dy := pI.y - pJ.y
  let distanceSqrd := flooredDistanceSqrd dx dy
  if distanceSqrd < PARTICLE_INTERACTION_DISTANCE_THRESH_SQRD then
    let r2inv := 1 / distanceSqrd
    let r6inv := r2inv * r2inv * r2inv
    let forceScalar := 48 * r2inv * r6inv * (r6inv - 0.5) * epsilon
    ⟨dx * forceScalar, dy * forceScalar⟩
  else ⟨0, 0⟩

/-- All index pairs `(i, j)` with `i < j < n`, in the order visited by the
doubly nested loop of updateInteractionForces (`i` outer, `j = i+1` inner). -/
def pairList (n : ℕ) : List (ℕ × ℕ) :=
  ((List.range n).map fun i =>
    ((List.range n).filter fun j => decide (i < j)).map fun j => (i, j)).flatten

/-- Accumulate one pair's force contribution: the force is added to molecule
`i`'s next-step force and the identical values are subtracted from molecule
`j`'s (lines `nextAtomForcesI.addXY` / `nextAtomForces[j].subtractXY`). -/
def applyPairForce (epsilon : ℚ) (positions : List (Vec2 ℚ))
    (nextForces : List (Vec2 ℚ)) (ij : ℕ × ℕ) : List (Vec2 ℚ) :=
  let pI := positions.getD ij.1 ⟨0, 0⟩
  let pJ := positions.getD ij.2 ⟨0, 0⟩
  let f := ljPairForce epsilon pI pJ
  updAt (updAt nextForces ij.1 fun v => v.addXY f.x f.y) ij.2
    fun v => v.subtractXY f.x f.y

/-- MonatomicVerletAlgorithm.updateInteractionForces: the all-pairs loop that
accumulates Lennard-Jones forces into the next-step force array.  Positions
are only read during the pass, so the pass is a fold over the pair list. -/
def updateInteractionForces (epsilon : ℚ) (positions : List (Vec2 ℚ))
    (nextForces : List (Vec2 ℚ)) : List (Vec2 ℚ) :=
  (pairList positions.length).foldl (applyPairForce epsilon positions) nextForces

/-! ### Monatomic Verlet algorithm: velocity update

Translated from MonatomicVerletAlgorithm.updateVelocitiesAndRotationRates.
The function is generic in the scalar field and in the square-root function
so that it can be instantiated both at `ℚ` with a square-root oracle (for the
executable orchestrator pipeline) and at `ℝ` with `Real.sqrt` (for reasoning
about the magnitude cap, whose exact value involves a real square root). -/

/-- One molecule's velocity-Verlet completion: the velocity is advanced by
the average of the old and new forces, then capped at magnitude 10
(`if velocityVector.magnitude > 10 then setMagnitude(10)`; Vector2's
setMagnitude multiplies both components by newMagnitude / magnitude). -/
def verletVelocityOne {K : Type} [Field K] [LinearOrder K]
    (sqrtFn : K → K) (timeStepHalf : K) (v f nf : Vec2 K) : Vec2 K :=
  let vv : Vec2 K := ⟨v.x + timeStepHalf * (f.x + nf.x),
                      v.y + timeStepHalf * (f.y + nf.y)⟩
  if 10 < sqrtFn vv.mag2 then
    let scale := 10 / sqrtFn vv.mag2
    ⟨vv.x * scale, vv.y * scale⟩
  else vv

/-- Result of the velocity-update pass: new velocities, the next-step forces
copied into the current-force array, and the kinetic-energy-derived
temperature. -/
structure VelUpdateResult (K : Type) where
  velocities : List (Vec2 K)
  forces : List (Vec2 K)
  calculatedTemperature : K
  deriving Repr, DecidableEq

/-- MonatomicVerletAlgorithm.updateVelocitiesAndRotationRates: per-molecule
velocity-Verlet completion with the magnitude cap, force double-buffer copy,
and the temperature `(2/3) * (totalKineticEnergy / numberOfAtoms)` (falling
back to the minimum model temperature when there are no atoms). -/
def updateVelocitiesAndRotationRates {K : Type} [Field K] [LinearOrder K]
    (sqrtFn : K → K) (minModelTemperature timeStep : K)
    (velocities forces nextForces : List (Vec2 K)) : VelUpdateResult K :=
  let timeStepHalf := timeStep / 2
  let newVelocities := (velocities.zip (forces.zip nextForces)).map
    fun p => verletVelocityOne sqrtFn timeStepHalf p.1 p.2.1 p.2.2
  let totalKineticEnergy :=
    (newVelocities.map fun w => (w.x * w.x + w.y * w.y) / 2).sum
  { velocities := newVelocities
    forces := nextForces
    calculatedTemperature :=
      if velocities.length ≠ 0 then
        (2 / 3) * (totalKineticEnergy / (velocities.length : K))
      else minModelTemperature }

/-! ### Pressure accumulation and the explosion threshold

Translated from AbstractVerletAlgorithm.updatePressure and the constants
PRESSURE_CALC_TIME_WINDOW, EXPLOSION_PRESSURE, EXPLOSION_TIME. -/

/-- PRESSURE_CALC_TIME_WINDOW: length in seconds of the moving time window
over which wall-collision pressure contributions are accumulated. -/
def PRESSURE_CALC_TIME_WINDOW : ℚ := 12

/-- EXPLOSION_PRESSURE: pressure, in model units, above which the explosion
timer runs. -/
def EXPLOSION_PRESSURE : ℚ := 41

/-- EXPLOSION_TIME: time in seconds that the pressure must stay above the
threshold before the container explodes. -/
def EXPLOSION_TIME : ℚ := 1

/-- Modelled from the spec: TimeSpanDataQueue (the class itself is not part
of this source snapshot).  A moving time window of (value, dt) entries,
newest first; `total` sums the stored values and entries are dropped once the
accumulated time of newer entries exceeds the window duration. -/
structure TimeSpanDataQueue where
  entries : List (ℚ × ℚ)
  deriving Repr, DecidableEq

namespace TimeSpanDataQueue

/-- Sum of the values currently held in the window. -/
def total (q : TimeSpanDataQueue) : ℚ := (q.entries.map Prod.fst).sum

/-- Keep the newest entries whose accumulated time stays within the window. -/
def keepWithin (acc : ℚ) : List (ℚ × ℚ) → List (ℚ × ℚ)
  | [] => []
  | e :: es =>
    if acc + e.2 ≤ PRESSURE_CALC_TIME_WINDOW then e :: keepWithin (acc + e.2) es
    else []

/-- Add a new (value, dt) entry, evicting entries that fall out of the
window. -/
def add (q : TimeSpanDataQueue) (value dt : ℚ) : TimeSpanDataQueue :=
  ⟨keepWithin 0 ((value, dt) :: q.entries)⟩

/-- Drop all entries. -/
def clear : TimeSpanDataQueue := ⟨[]⟩

end TimeSpanDataQueue

/-- Pressure-related state of the Verlet algorithm together with the
container's exploded flag (which AbstractVerletAlgorithm.updatePressure sets
through MultipleParticleModel.setContainerExploded). -/
structure PressureBookkeeping where
  queue : TimeSpanDataQueue
  pressure : ℚ
  timeAboveExplosionPressure : ℚ
  exploded : Bool
  deriving Repr, DecidableEq

/-- Windowed pressure value computed by updatePressure for the current call:
the step contribution (zeroed at absolute zero) is added to the window and
the window total is divided by the window duration, clamped at zero. -/
def windowedPressure (temperatureSetPoint minModelTemperature : ℚ)
    (s : PressureBookkeeping) (pressureThisStep dt : ℚ) : ℚ :=
  let contribution :=
    if 0 < pressureThisStep ∧ temperatureSetPoint ≤ minModelTemperature then 0
    else pressureThisStep
  max ((s.queue.add contribution dt).total / PRESSURE_CALC_TIME_WINDOW) 0

/-- AbstractVerletAlgorithm.updatePressure: one call of the pressure
bookkeeping step, including the explosion timer and trigger. -/
def updatePressure (temperatureSetPoint minModelTemperature : ℚ)
    (s : PressureBookkeeping) (pressureThisStep dt : ℚ) : PressureBookkeeping :=
  if s.exploded then
    { s with queue := TimeSpanDataQueue.clear, pressure := 0 }
  else
    let contribution :=
      if 0 < pressureThisStep ∧ temperatureSetPoint ≤ minModelTemperature then 0
      else pressureThisStep
    let queue := s.queue.add contribution dt
    let newPressure := max (queue.total / PRESSURE_CALC_TIME_WINDOW) 0
    if EXPLOSION_PRESSURE < newPressure then
      let timeAbove := s.timeAboveExplosionPressure + dt
      if EXPLOSION_TIME < timeAbove then
        { queue := queue, pressure := 0, timeAboveExplosionPressure := timeAbove
          exploded := true }
      else
        { queue := queue, pressure := newPressure
          timeAboveExplosionPressure := timeAbove, exploded := s.exploded }
    else
      { queue := queue, pressure := newPressure
        timeAboveExplosionPressure := 0, exploded := s.exploded }

/-- Iterate updatePressure over a sequence of (pressureThisStep, dt) calls. -/
def updatePressureRun (temperatureSetPoint minModelTemperature : ℚ)
    (s : PressureBookkeeping) (calls : List (ℚ × ℚ)) : PressureBookkeeping :=
  calls.foldl
    (fun st c => updatePressure temperatureSetPoint minModelTemperature st c.1 c.2)
    s

/-- Decidable predicate: every call in the sequence finds the windowed
pressure above the explosion threshold (trivially so once exploded, since the
windowed value is no longer computed then). -/
def allAboveThreshold (temperatureSetPoint minModelTemperature : ℚ)
    (s : PressureBookkeeping) : List (ℚ × ℚ) → Bool
  | [] => true
  | c :: rest =>
    (s.exploded || decide (EXPLOSION_PRESSURE <
        windowedPressure temperatureSetPoint minModelTemperature s c.1 c.2)) &&
    allAboveThreshold temperatureSetPoint minModelTemperature
      (updatePressure temperatureSetPoint minModelTemperature s c.1 c.2) rest

/-- Decidable predicate: every call in the sequence finds the windowed
pressure at or below the explosion threshold. -/
def allAtOrBelowThreshold (temperatureSetPoint minModelTemperature : ℚ)
    (s : PressureBookkeeping) : List (ℚ × ℚ) → Bool
  | [] => true
  | c :: rest =>
    decide (windowedPressure temperatureSetPoint minModelTemperature s c.1 c.2
        ≤ EXPLOSION_PRESSURE) &&
    allAtOrBelowThreshold temperatureSetPoint minModelTemperature
      (updatePressure temperatureSetPoint minModelTemperature s c.1 c.2) rest

/-! ### Substances, phases, and shared constants -/

/-- SubstanceType enumeration (SubstanceType.js). -/
inductive SubstanceType where
  | NEON
  | ARGON
  | DIATOMIC_OXYGEN
  | WATER
  | ADJUSTABLE_ATOM
  deriving Repr, DecidableEq

/-- Phase identifiers (AbstractPhaseStateChanger.PHASE_SOLID / PHASE_LIQUID /
PHASE_GAS). -/
inductive PhaseID where
  | solid
  | liquid
  | gas
  deriving Repr, DecidableEq

/-- MAX_TEMPERATURE from MultipleParticleModel. -/
def MAX_TEMPERATURE : ℚ := 50.0

/-- MIN_TEMPERATURE from MultipleParticleModel. -/
def MIN_TEMPERATURE : ℚ := 0.00001

/-- TEMPERATURE_CHANGE_RATE from MultipleParticleModel. -/
def TEMPERATURE_CHANGE_RATE : ℚ := 0.07

/-- TEMPERATURE_CLOSENESS_RANGE from MultipleParticleModel. -/
def TEMPERATURE_CLOSENESS_RANGE : ℚ := 0.15

/-- PARTICLE_SPEED_UP_FACTOR from MultipleParticleModel. -/
def PARTICLE_SPEED_UP_FACTOR : ℚ := 4

/-- MAX_PARTICLE_MOTION_TIME_STEP from MultipleParticleModel. -/
def MAX_PARTICLE_MOTION_TIME_STEP : ℚ := 0.025

/-- MAX_CONTAINER_SHRINK_RATE from MultipleParticleModel. -/
def MAX_CONTAINER_SHRINK_RATE : ℚ := 1250

/-- MAX_CONTAINER_EXPAND_RATE from MultipleParticleModel. -/
def MAX_CONTAINER_EXPAND_RATE : ℚ := 1500

/-- POST_EXPLOSION_CONTAINER_EXPANSION_RATE from MultipleParticleModel. -/
def POST_EXPLOSION_CONTAINER_EXPANSION_RATE : ℚ := 9000

/-- PARTICLE_CONTAINER_INITIAL_HEIGHT from MultipleParticleModel. -/
def PARTICLE_CONTAINER_INITIAL_HEIGHT : ℚ := 10000

/-- MIN_ALLOWABLE_CONTAINER_HEIGHT from MultipleParticleModel. -/
def MIN_ALLOWABLE_CONTAINER_HEIGHT : ℚ := 1500

/-- MOLECULE_INJECTION_HOLDOFF_TIME from MultipleParticleModel. -/
def MOLECULE_INJECTION_HOLDOFF_TIME : ℚ := 0.25

/-- INJECTED_MOLECULE_SPEED from MultipleParticleModel. -/
def INJECTED_MOLECULE_SPEED : ℚ := 2.0

/-! ### Oracle environment

JavaScript's Math.sqrt, Math.cos, Math.sin, fractional Math.pow, Math.PI and
the random number streams do not have exact rational values, so they enter
the embedding as parameters collected in an environment record.  The
temperature constants of SOMConstants (a module that is not part of this
source snapshot) are likewise parameters. -/

/-- Modelled from the spec: the three phase-characteristic normalized
temperatures of SOMConstants (SOLID_TEMPERATURE, LIQUID_TEMPERATURE,
GAS_TEMPERATURE); their numeric values are not part of this snapshot. -/
structure SimConstants where
  SOLID_TEMPERATURE : ℚ
  LIQUID_TEMPERATURE : ℚ
  GAS_TEMPERATURE : ℚ
  deriving Repr, DecidableEq

/-- Modelled from the spec: the per-substance triple-point/critical-point
conversion constants selected by the switch in getTemperatureInKelvin; the
SOMConstants values are not part of this snapshot. -/
structure TempConstants where
  triplePointInKelvin : ℚ
  criticalPointInKelvin : ℚ
  triplePointInModelUnits : ℚ
  criticalPointInModelUnits : ℚ
  deriving Repr, DecidableEq

/-- Oracle environment: rational stand-ins for the irrational math
primitives, the random streams (indexed by a counter carried in the model
state), and the spec-modelled constants. -/
structure Env where
  sqrtQ : ℚ → ℚ
  cosQ : ℚ → ℚ
  sinQ : ℚ → ℚ
  powQ : ℚ → ℚ → ℚ
  piQ : ℚ
  nextDouble : ℕ → ℚ
  nextGaussian : ℕ → ℚ
  consts : SimConstants
  tempConsts : SubstanceType → TempConstants

/-! ### Thermostat state and the Andersen damping coefficients -/

/-- Modelled from the spec: IsokineticThermostat (the class itself is not
part of this snapshot): it holds a target temperature and accumulated bias
terms that are cleared on strategy switch, and rescales every molecule's
velocity and rotation rate by a factor derived from the ratio of target to
calculated temperature. -/
structure IsokineticThermostatState where
  targetTemperature : ℚ
  accumulatedBias : ℚ
  deriving Repr, DecidableEq

/-- AndersenThermostat state: target temperature and the minimum model
temperature threshold (AndersenThermostat.js constructor). -/
structure AndersenThermostatState where
  targetTemperature : ℚ
  minModelTemperature : ℚ
  deriving Repr, DecidableEq

/-- Damping coefficients and effective temperature selected at the top of
AndersenThermostat.adjustTemperature: gammaX = gammaY = 0.9999 by default;
when the target temperature is at or below the minimum model temperature,
gammaX = 0.992, gammaY = 0.999 (scaled differently in Y so particles keep
falling) and the temperature used for scaling is zeroed. -/
def andersenGammas (targetTemperature minModelTemperature : ℚ) : ℚ × ℚ × ℚ :=
  if targetTemperature ≤ minModelTemperature then (0.992, 0.999, 0)
  else (0.9999, 0.9999, targetTemperature)

/-- Per-molecule loop of AndersenThermostat.adjustTemperature: each
molecule's velocity components are damped and blended with Gaussian samples,
and its rotation rate likewise; three Gaussian samples are drawn per
molecule. -/
def andersenLoop (gaussian : ℕ → ℚ) (gammaX gammaY vScale rScale : ℚ) :
    List (Vec2 ℚ × ℚ) → ℕ → List (Vec2 ℚ × ℚ) × ℕ
  | [], idx => ([], idx)
  | (v, r) :: rest, idx =>
    let xVel := v.x * gammaX + gaussian idx * vScale
    let yVel := v.y * gammaY + gaussian (idx + 1) * vScale
    let r' := gammaX * r + gaussian (idx + 2) * rScale
    let tail := andersenLoop gaussian gammaX gammaY vScale rScale rest (idx + 3)
    ((⟨xVel, yVel⟩, r') :: tail.1, tail.2)

/-- AndersenThermostat.adjustTemperature: selects the damping coefficients
via `andersenGammas`, computes the velocity/rotation scaling factors, and
runs the per-molecule loop.  Returns the new velocities, rotation rates, and
random-stream index. -/
def andersenAdjustTemperature (env : Env) (st : AndersenThermostatState)
    (moleculeMass moleculeRotationalInertia : ℚ)
    (velocities : List (Vec2 ℚ)) (rotationRates : List ℚ) (rngIndex : ℕ) :
    List (Vec2 ℚ) × List ℚ × ℕ :=
  let g := andersenGammas st.targetTemperature st.minModelTemperature
  let gammaX := g.1
  let gammaY := g.2.1
  let temperature := g.2.2
  let massInverse := 1 / moleculeMass
  let inertiaInverse := 1 / moleculeRotationalInertia
  let velocityScalingFactor := env.sqrtQ (temperature * massInverse * (1 - gammaX ^ 2))
  let rotationScalingFactor := env.sqrtQ (temperature * inertiaInverse * (1 - gammaX ^ 2))
  let res := andersenLoop env.nextGaussian gammaX gammaY velocityScalingFactor
    rotationScalingFactor (velocities.zip rotationRates) rngIndex
  (res.1.map Prod.fst, res.1.map Prod.snd, res.2)

/-- Modelled from the spec: IsokineticThermostat.adjustTemperature rescales
every molecule's velocity and rotation rate by a single factor derived from
the ratio of target to calculated instantaneous temperature. -/
def isokineticAdjustTemperature (env : Env) (st : IsokineticThermostatState)
    (calculatedTemperature : ℚ) (velocities : List (Vec2 ℚ))
    (rotationRates : List ℚ) : List (Vec2 ℚ) × List ℚ :=
  let factor := env.sqrtQ (st.targetTemperature / calculatedTemperature)
  (velocities.map fun v => ⟨v.x * factor, v.y * factor⟩,
    rotationRates.map fun r => r * factor)

/-! ### MovingAverage (MovingAverage.js) -/

/-- Moving-average state: fixed-size circular array with running total. -/
structure MovingAverageState where
  size : ℕ
  average : ℚ
  initialValue : ℚ
  array : List ℚ
  currentIndex : ℕ
  total : ℚ
  deriving Repr, DecidableEq

/-- MovingAverage.addValue: replace the slot at the current index, advance
the index modulo the size, and update the running total and average. -/
def MovingAverageState.addValue (s : MovingAverageState) (newValue : ℚ) :
    MovingAverageState :=
  let replacedValue := s.array.getD s.currentIndex 0
  { s with
    array := updAt s.array s.currentIndex fun _ => newValue
    currentIndex := (s.currentIndex + 1) % s.size
    total := (s.total - replacedValue) + newValue
    average := ((s.total - replacedValue) + newValue) / (s.size : ℚ) }

/-! ### Molecule data set -/

/-- MoleculeForceAndMotionDataSet, restricted to the parallel arrays and
shared attributes the monatomic pipeline touches.  The class itself is not
part of this snapshot; its layout is modelled from the spec's data-model
section (parallel per-molecule arrays, per-atom position array, molecule
mass and rotational inertia, insideContainer flags, bounded capacity). -/
structure MoleculeDataSet where
  atomsPerMolecule : ℕ
  moleculeCenterOfMassPositions : List (Vec2 ℚ)
  moleculeVelocities : List (Vec2 ℚ)
  moleculeForces : List (Vec2 ℚ)
  nextMoleculeForces : List (Vec2 ℚ)
  moleculeRotationAngles : List ℚ
  moleculeRotationRates : List ℚ
  moleculeTorques : List ℚ
  insideContainer : List Bool
  atomPositions : List (Vec2 ℚ)
  moleculeMass : ℚ
  moleculeRotationalInertia : ℚ
  numberOfSafeMolecules : ℕ
  capacity : ℕ
  deriving Repr, DecidableEq

namespace MoleculeDataSet

/-- Number of molecules in the data set. -/
def numberOfMolecules (ds : MoleculeDataSet) : ℕ :=
  ds.moleculeCenterOfMassPositions.length

/-- Number of atoms in the data set. -/
def numberOfAtoms (ds : MoleculeDataSet) : ℕ :=
  ds.atomsPerMolecule * ds.numberOfMolecules

/-- Remaining capacity, in molecules. -/
def getNumberOfRemainingSlots (ds : MoleculeDataSet) : ℤ :=
  (ds.capacity : ℤ) - (ds.numberOfMolecules : ℤ)

/-- Modelled from the spec: addMolecule appends one molecule to every
parallel array (the next-step force starts at zero, the rotation angle at
zero, the torque at zero). -/
def addMolecule (ds : MoleculeDataSet) (atomPos : List (Vec2 ℚ))
    (centerOfMass : Vec2 ℚ) (velocity : Vec2 ℚ) (rotationRate : ℚ)
    (insideCont : Bool) : MoleculeDataSet :=
  { ds with
    moleculeCenterOfMassPositions := ds.moleculeCenterOfMassPositions ++ [centerOfMass]
    moleculeVelocities := ds.moleculeVelocities ++ [velocity]
    moleculeForces := ds.moleculeForces ++ [⟨0, 0⟩]
    nextMoleculeForces := ds.nextMoleculeForces ++ [⟨0, 0⟩]
    moleculeRotationAngles := ds.moleculeRotationAngles ++ [0]
    moleculeRotationRates := ds.moleculeRotationRates ++ [rotationRate]
    moleculeTorques := ds.moleculeTorques ++ [0]
    insideContainer := ds.insideContainer ++ [insideCont]
    atomPositions := ds.atomPositions ++ atomPos }

/-- Modelled from the spec: per-molecule kinetic energy, translational plus
rotational. -/
def getMoleculeKineticEnergy (ds : MoleculeDataSet) (i : ℕ) : ℚ :=
  let v := ds.moleculeVelocities.getD i ⟨0, 0⟩
  let r := ds.moleculeRotationRates.getD i 0
  ds.moleculeMass * (v.x * v.x + v.y * v.y) / 2 +
    ds.moleculeRotationalInertia * r * r / 2

/-- MonatomicAtomPositionUpdater.updateAtomPositions: each atom position is
the corresponding molecule's center-of-mass position. -/
def monatomicUpdateAtomPositions (ds : MoleculeDataSet) : MoleculeDataSet :=
  { ds with atomPositions := ds.moleculeCenterOfMassPositions }

end MoleculeDataSet

/-! ### Multiple-particle model (orchestrator) state -/

/-- Which thermostat ran in the previous step (null / isokinetic /
Andersen). -/
inductive ThermostatChoice where
  | noThermostat
  | isoKinetic
  | andersen
  deriving Repr, DecidableEq

/-- State of MultipleParticleModel together with the state of its active
monatomic Verlet calculator and thermostats.  Thermostat objects are always
present here (in the source they are null only before the first substance
initialization), so the null guards of setTemperature are always taken. -/
structure Model where
  particleContainerHeight : ℚ
  targetContainerHeight : ℚ
  isExploded : Bool
  temperatureSetPoint : ℚ
  pressure : ℚ
  substance : SubstanceType
  isPlaying : Bool
  heatingCoolingAmount : ℚ
  particles : List (Vec2 ℚ)
  moleculeDataSet : MoleculeDataSet
  normalizedContainerWidth : ℚ
  gravitationalAcceleration : ℚ
  normalizedContainerHeight : ℚ
  normalizedTotalContainerHeight : ℚ
  normalizedLidVelocityY : ℚ
  particleDiameter : ℚ
  minModelTemperature : ℚ
  residualTime : ℚ
  numMoleculesAwaitingInjection : ℤ
  moleculeInjectionHoldoffTimer : ℚ
  injectionPointX : ℚ
  injectionPointY : ℚ
  heightChangeThisStep : ℚ
  particleInjectedThisStep : Bool
  verletEpsilon : ℚ
  verletPressure : ℚ
  verletQueue : TimeSpanDataQueue
  verletTimeAbove : ℚ
  lidChangedParticleVelocity : Bool
  calculatedTemperature : ℚ
  isoKineticThermostat : IsokineticThermostatState
  andersenThermostat : AndersenThermostatState
  thermostatRunPreviousStep : ThermostatChoice
  averageTemperatureDifference : MovingAverageState
  rngIndex : ℕ

namespace Model

/-- MultipleParticleModel.setTemperature: the temperature set-point property
is clamped into [MIN_TEMPERATURE, MAX_TEMPERATURE], while both thermostats'
targetTemperature fields receive the unclamped argument. -/
def setTemperature (m : Model) (newTemperature : ℚ) : Model :=
  let setPoint :=
    if MAX_TEMPERATURE < newTemperature then MAX_TEMPERATURE
    else if newTemperature < MIN_TEMPERATURE then MIN_TEMPERATURE
    else newTemperature
  { m with
    temperatureSetPoint := setPoint
    isoKineticThermostat :=
      { m.isoKineticThermostat with targetTemperature := newTemperature }
    andersenThermostat :=
      { m.andersenThermostat with targetTemperature := newTemperature } }

/-- MultipleParticleModel.getTemperatureInKelvin: null when there are no
particles; 0 at or below the minimum model temperature; a triple-point
scaled value clamped below at 0.5 between the minimum and the triple point;
a linear interpolation between triple and critical points; and a
critical-point scaled value above.  The per-substance constants come from
the environment (their SOMConstants values are not in this snapshot). -/
def getTemperatureInKelvin (env : Env) (m : Model) : Option ℚ :=
  if m.particles.length = 0 then none
  else
    let c := env.tempConsts m.substance
    some (
      if m.temperatureSetPoint ≤ m.minModelTemperature then 0
      else if m.temperatureSetPoint < c.triplePointInModelUnits then
        let t := m.temperatureSetPoint * c.triplePointInKelvin /
          c.triplePointInModelUnits
        if t < 0.5 then 0.5 else t
      else if m.temperatureSetPoint < c.criticalPointInModelUnits then
        let slope := (c.criticalPointInKelvin - c.triplePointInKelvin) /
          (c.criticalPointInModelUnits - c.triplePointInModelUnits)
        let offset := c.triplePointInKelvin - slope * c.triplePointInModelUnits
        m.temperatureSetPoint * slope + offset
      else
        m.temperatureSetPoint * c.criticalPointInKelvin /
          c.criticalPointInModelUnits)

/-- AbstractVerletAlgorithm.isNormalizedPositionInContainer. -/
def isNormalizedPositionInContainer (m : Model) (xPos yPos : ℚ) : Bool :=
  decide (0 ≤ xPos ∧ xPos ≤ m.normalizedContainerWidth ∧ 0 ≤ yPos ∧
    yPos ≤ m.normalizedTotalContainerHeight)

end Model

/-- Accumulator threaded through the per-molecule loop of
AbstractVerletAlgorithm.updateMoleculePositions. -/
structure MolPosLoopState where
  positions : List (Vec2 ℚ)
  velocities : List (Vec2 ℚ)
  rotationAngles : List ℚ
  insideContainer : List Bool
  accumulatedPressure : ℚ
  lidChanged : Bool

/-- Outcome of the wall-bounce handling for one molecule. -/
structure BounceResult where
  xPos : ℚ
  yPos : ℚ
  velX : ℚ
  velY : ℚ
  inside : Bool
  accumulatedPressure : ℚ
  lidChanged : Bool

namespace Model

/-- Body of the per-molecule loop of updateMoleculePositions: position-Verlet
candidate position, container re-entry check, wall/bottom/lid bounces with
pressure accumulation and lid-velocity transfer, and the rotation-angle
update.  The bounce insets are all 1 (AbstractVerletAlgorithm constructor). -/
def updateMoleculePositionsStep (m : Model) (timeStep : ℚ)
    (st : MolPosLoopState) (i : ℕ) : MolPosLoopState :=
  let ds := m.moleculeDataSet
  let timeStepSqrHalf := timeStep * timeStep * 0.5
  let massInverse := 1 / ds.moleculeMass
  let inertiaInverse := 1 / ds.moleculeRotationalInertia
  let pressureAccumulationMinHeight := m.normalizedContainerHeight * 0.3
  let minX : ℚ := 1
  let minY : ℚ := 1
  let maxX := m.normalizedContainerWidth - 1
  let maxY := m.normalizedContainerHeight - 1
  let moleculeVelocity := st.velocities.getD i ⟨0, 0⟩
  let vX := moleculeVelocity.x
  let vY := moleculeVelocity.y
  let pos := st.positions.getD i ⟨0, 0⟩
  let force := ds.moleculeForces.getD i ⟨0, 0⟩
  let xPos := pos.x + timeStep * vX + timeStepSqrHalf * force.x * massInverse
  let yPos := pos.y + timeStep * vY + timeStepSqrHalf * force.y * massInverse
  let inside0 := st.insideContainer.getD i false
  let inside1 :=
    if ¬inside0 ∧ m.isNormalizedPositionInContainer xPos yPos then true
    else inside0
  let r : BounceResult :=
    if inside1 then
      -- bounce off the side walls
      let a : ℚ × ℚ × ℚ :=
        if xPos ≤ minX ∧ vX < 0 then
          (minX, -vX,
            if pressureAccumulationMinHeight < yPos then
              st.accumulatedPressure + -vX
            else st.accumulatedPressure)
        else if maxX ≤ xPos ∧ 0 < vX then
          (maxX, -vX,
            if pressureAccumulationMinHeight < yPos then
              st.accumulatedPressure + vX
            else st.accumulatedPressure)
        else (xPos, vX, st.accumulatedPressure)
      -- bounce off the bottom, else off the top/lid
      if yPos ≤ minY ∧ vY ≤ 0 then
        ⟨a.1, minY, a.2.1, -vY, inside1, a.2.2, st.lidChanged⟩
      else if maxY ≤ yPos then
        if ¬m.isExploded then
          let lidVelocity := m.normalizedLidVelocityY
          let lidChanged' := st.lidChanged || decide (lidVelocity ≠ 0)
          let velY' :=
            if 0 < vY then -vY + lidVelocity * 0.3
            else if |vY| < |lidVelocity| then lidVelocity
            else vY
          ⟨a.1, maxY, a.2.1, velY', inside1, a.2.2 + |vY|, lidChanged'⟩
        else
          -- the particle has left the container
          ⟨a.1, yPos, a.2.1, vY, false, a.2.2, st.lidChanged⟩
      else ⟨a.1, yPos, a.2.1, vY, inside1, a.2.2, st.lidChanged⟩
    else ⟨xPos, yPos, vX, vY, inside1, st.accumulatedPressure, st.lidChanged⟩
  { positions := (updAt st.positions i fun _ => ⟨r.xPos, r.yPos⟩)
    velocities := (updAt st.velocities i fun _ => ⟨r.velX, r.velY⟩)
    rotationAngles := (updAt st.rotationAngles i fun angle =>
      angle + timeStep * ds.moleculeRotationRates.getD i 0 +
        timeStepSqrHalf * ds.moleculeTorques.getD i 0 * inertiaInverse)
    insideContainer := (updAt st.insideContainer i fun _ => r.inside)
    accumulatedPressure := r.accumulatedPressure
    lidChanged := r.lidChanged }

/-- AbstractVerletAlgorithm.updateMoleculePositions: run the per-molecule
loop, re-derive the atom positions (monatomic updater), and feed the
accumulated wall pressure into the pressure bookkeeping, whose exploded flag
is written back through setContainerExploded. -/
def updateMoleculePositionsModel (m : Model) (timeStep : ℚ) : Model :=
  let ds := m.moleculeDataSet
  let n := ds.numberOfMolecules
  let start : MolPosLoopState :=
    ⟨ds.moleculeCenterOfMassPositions, ds.moleculeVelocities,
      ds.moleculeRotationAngles, ds.insideContainer, 0, false⟩
  let fin := (List.range n).foldl (m.updateMoleculePositionsStep timeStep) start
  let ds1 := { ds with
    moleculeCenterOfMassPositions := fin.positions
    moleculeVelocities := fin.velocities
    moleculeRotationAngles := fin.rotationAngles
    insideContainer := fin.insideContainer }
  let ds2 := ds1.monatomicUpdateAtomPositions
  let m1 := { m with
    moleculeDataSet := ds2
    lidChangedParticleVelocity := m.lidChangedParticleVelocity || fin.lidChanged }
  let s := updatePressure m1.temperatureSetPoint m1.minModelTemperature
    ⟨m1.verletQueue, m1.verletPressure, m1.verletTimeAbove, m1.isExploded⟩
    fin.accumulatedPressure timeStep
  { m1 with
    verletQueue := s.queue
    verletPressure := s.pressure
    verletTimeAbove := s.timeAboveExplosionPressure
    isExploded := s.exploded }

/-- MonatomicVerletAlgorithm.updateForcesAndMotion (inherited structure from
AbstractVerletAlgorithm.updateForcesAndMotion): positions and wall handling,
force re-initialization to gravity, pairwise Lennard-Jones forces, and the
velocity update. -/
def monatomicUpdateForcesAndMotion (env : Env) (m : Model) (timeStep : ℚ) :
    Model :=
  let m1 := m.updateMoleculePositionsModel timeStep
  let ds := m1.moleculeDataSet
  let nextForces0 := ds.moleculeCenterOfMassPositions.map
    fun _ => (⟨0, m1.gravitationalAcceleration⟩ : Vec2 ℚ)
  let nextForces1 := updateInteractionForces m1.verletEpsilon
    ds.moleculeCenterOfMassPositions nextForces0
  let res := updateVelocitiesAndRotationRates env.sqrtQ m1.minModelTemperature
    timeStep ds.moleculeVelocities ds.moleculeForces nextForces1
  { m1 with
    moleculeDataSet := { ds with
      nextMoleculeForces := nextForces1
      moleculeVelocities := res.velocities
      moleculeForces := res.forces }
    calculatedTemperature := res.calculatedTemperature }

/-- MultipleParticleModel.syncParticlePositions: the view-facing particle
positions are the normalized atom positions scaled by the particle
diameter. -/
def syncParticlePositions (m : Model) : Model :=
  { m with particles := (m.moleculeDataSet.atomPositions.map
      fun p => ⟨p.x * m.particleDiameter, p.y * m.particleDiameter⟩) }

/-- MultipleParticleModel.dampUpwardMotion: upward velocity components are
scaled by 1 − 0.9·dt. -/
def dampUpwardMotion (m : Model) (dt : ℚ) : Model :=
  { m with moleculeDataSet := { m.moleculeDataSet with
      moleculeVelocities := (m.moleculeDataSet.moleculeVelocities.map
        fun v => if 0 < v.y then ⟨v.x, v.y * (1 - dt * 0.9)⟩ else v) } }

/-- MultipleParticleModel.injectMoleculeInternal for the monatomic pipeline:
either the preconditions fail and the pending-injection count is zeroed, or
a molecule is appended with an angle-spread velocity of magnitude 2, the atom
positions are re-derived, a view particle is added, positions are synced,
and the injected-this-step flag is raised. -/
def injectMoleculeInternal (env : Env) (m : Model) : Model :=
  if ¬m.isPlaying ∨ m.moleculeDataSet.getNumberOfRemainingSlots ≤ 0 ∨
      m.normalizedContainerHeight < m.injectionPointY * 1.05 ∨ m.isExploded then
    { m with numMoleculesAwaitingInjection := 0 }
  else
    let injectionAngle := (env.nextDouble m.rngIndex - 0.5) * (env.piQ * 0.25)
    let xVel := env.cosQ injectionAngle * INJECTED_MOLECULE_SPEED
    let yVel := env.sinQ injectionAngle * INJECTED_MOLECULE_SPEED
    let moleculeRotationRate :=
      (env.nextDouble (m.rngIndex + 1) - 0.5) * (env.piQ / 4)
    let atomsPerMolecule := m.moleculeDataSet.atomsPerMolecule
    let newAtomPositions := List.replicate atomsPerMolecule (⟨0, 0⟩ : Vec2 ℚ)
    let ds1 := m.moleculeDataSet.addMolecule newAtomPositions
      ⟨m.injectionPointX, m.injectionPointY⟩ ⟨xVel, yVel⟩
      moleculeRotationRate true
    let next :=
      if 1 < atomsPerMolecule then
        ({ ds1 with moleculeRotationAngles :=
            (updAt ds1.moleculeRotationAngles (ds1.numberOfMolecules - 1)
              fun _ => env.nextDouble (m.rngIndex + 2) * 2 * env.piQ) },
          m.rngIndex + 3)
      else (ds1, m.rngIndex + 2)
    let ds2 := next.1.monatomicUpdateAtomPositions
    let m1 := { m with
      moleculeDataSet := ds2
      rngIndex := next.2
      particles := m.particles ++
        List.replicate atomsPerMolecule (⟨0, 0⟩ : Vec2 ℚ) }
    let m2 := m1.syncParticlePositions
    { m2 with particleInjectedThisStep := true }

/-- MultipleParticleModel.runThermostat: skipped entirely after an
explosion; after an injection or a lid-velocity interaction the temperature
set-point is instead rewritten from the kinetic energy; otherwise one of the
two thermostats is selected and run.  The trailing moving-average update
follows the source, whose third conjunct reads an always-undefined field of
the model (hence always passes). -/
def runThermostat (env : Env) (m : Model) : Model :=
  if m.isExploded then m
  else
    let ds := m.moleculeDataSet
    let calculatedTemperature := m.calculatedTemperature
    let temperatureSetPoint := m.temperatureSetPoint
    let temperatureAdjustmentNeeded :=
      decide ((0 < m.heatingCoolingAmount ∧
          calculatedTemperature < temperatureSetPoint) ∨
        (m.heatingCoolingAmount < 0 ∧
          temperatureSetPoint < calculatedTemperature) ∨
        TEMPERATURE_CLOSENESS_RANGE <
          |calculatedTemperature - temperatureSetPoint|)
    let branch : Model × ThermostatChoice :=
      if m.particleInjectedThisStep then
        let numParticles := ds.numberOfMolecules
        let injectedParticleTemperature :=
          (2 / 3) * ds.getMoleculeKineticEnergy (numParticles - 1)
        let newTemperature :=
          temperatureSetPoint * ((numParticles : ℚ) - 1) / (numParticles : ℚ) +
            injectedParticleTemperature / (numParticles : ℚ)
        (m.setTemperature newTemperature, ThermostatChoice.noThermostat)
      else if m.lidChangedParticleVelocity then
        let m1 :=
          if (0 < m.heightChangeThisStep ∧
              calculatedTemperature < temperatureSetPoint) ∨
             (m.heightChangeThisStep < 0 ∧
              temperatureSetPoint < calculatedTemperature) then
            m.setTemperature
              (calculatedTemperature + m.averageTemperatureDifference.average)
          else m
        ({ m1 with lidChangedParticleVelocity := false },
          ThermostatChoice.noThermostat)
      else if temperatureAdjustmentNeeded = true ∨
          env.consts.LIQUID_TEMPERATURE < temperatureSetPoint ∨
          temperatureSetPoint < env.consts.SOLID_TEMPERATURE / 5 then
        let iso :=
          if m.thermostatRunPreviousStep ≠ ThermostatChoice.isoKinetic then
            { m.isoKineticThermostat with accumulatedBias := 0 }
          else m.isoKineticThermostat
        let adj := isokineticAdjustTemperature env iso calculatedTemperature
          ds.moleculeVelocities ds.moleculeRotationRates
        ({ m with
            isoKineticThermostat := iso
            moleculeDataSet := { ds with
              moleculeVelocities := adj.1
              moleculeRotationRates := adj.2 } },
          ThermostatChoice.isoKinetic)
      else if temperatureAdjustmentNeeded = false then
        let adj := andersenAdjustTemperature env m.andersenThermostat
          ds.moleculeMass ds.moleculeRotationalInertia ds.moleculeVelocities
          ds.moleculeRotationRates m.rngIndex
        ({ m with
            moleculeDataSet := { ds with
              moleculeVelocities := adj.1
              moleculeRotationRates := adj.2.1 }
            rngIndex := adj.2.2 },
          ThermostatChoice.andersen)
      else (m, ThermostatChoice.noThermostat)
    let m2 := { branch.1 with thermostatRunPreviousStep := branch.2 }
    if temperatureAdjustmentNeeded = false ∧ ¬m.particleInjectedThisStep then
      { m2 with averageTemperatureDifference :=
          (m2.averageTemperatureDifference.addValue
            (temperatureSetPoint - calculatedTemperature)) }
    else m2

/-- Container-height portion of MultipleParticleModel.stepInternal: approach
the target height at a bounded rate while intact, or expand rapidly after an
explosion (up to three times the initial height). -/
def adjustContainerHeight (m : Model) (dt : ℚ) : Model :=
  if ¬m.isExploded then
    if m.targetContainerHeight ≠ m.particleContainerHeight then
      let heightChange := m.targetContainerHeight - m.particleContainerHeight
      if 0 < heightChange then
        let hc := min heightChange (MAX_CONTAINER_EXPAND_RATE * dt)
        let newHeight := min (m.particleContainerHeight + hc)
          PARTICLE_CONTAINER_INITIAL_HEIGHT
        { m with
          heightChangeThisStep := hc
          particleContainerHeight := newHeight
          normalizedContainerHeight := newHeight / m.particleDiameter
          normalizedLidVelocityY := hc / m.particleDiameter / dt }
      else
        let hc := max heightChange (-(MAX_CONTAINER_SHRINK_RATE * dt))
        let newHeight := max (m.particleContainerHeight + hc)
          MIN_ALLOWABLE_CONTAINER_HEIGHT
        { m with
          heightChangeThisStep := hc
          particleContainerHeight := newHeight
          normalizedContainerHeight := newHeight / m.particleDiameter
          normalizedLidVelocityY := hc / m.particleDiameter / dt }
    else { m with heightChangeThisStep := 0, normalizedLidVelocityY := 0 }
  else
    let m1 := { m with heightChangeThisStep :=
      POST_EXPLOSION_CONTAINER_EXPANSION_RATE * dt }
    if m1.particleContainerHeight < PARTICLE_CONTAINER_INITIAL_HEIGHT * 3 then
      { m1 with particleContainerHeight := m1.particleContainerHeight +
          POST_EXPLOSION_CONTAINER_EXPANSION_RATE * dt }
    else m1

/-- Injection portion of MultipleParticleModel.stepInternal: inject a queued
molecule when the holdoff timer is idle, otherwise run the timer down. -/
def injectionStage (env : Env) (m : Model) (dt : ℚ) : Model :=
  if 0 < m.numMoleculesAwaitingInjection ∧
      m.moleculeInjectionHoldoffTimer = 0 then
    let m1 := injectMoleculeInternal env m
    { m1 with
      numMoleculesAwaitingInjection := m1.numMoleculesAwaitingInjection - 1
      moleculeInjectionHoldoffTimer := MOLECULE_INJECTION_HOLDOFF_TIME }
  else if 0 < m.moleculeInjectionHoldoffTimer then
    { m with moleculeInjectionHoldoffTimer :=
        (max (m.moleculeInjectionHoldoffTimer - dt) 0) }
  else m

/-- Temperature-set-point portion of MultipleParticleModel.stepInternal:
while heating or cooling, advance the set-point (more slowly near absolute
zero, clamped at MAX_TEMPERATURE otherwise), damp upward motion when heating
below the liquid temperature, jump to MIN_TEMPERATURE at absolute zero, and
propagate the new set-point to both thermostat targets. -/
def adjustTemperatureSetPoint (env : Env) (m : Model) (dt : ℚ) : Model :=
  let currentTemperature := m.temperatureSetPoint
  if m.heatingCoolingAmount ≠ 0 then
    let approachingAbsoluteZeroTemperature :=
      env.consts.SOLID_TEMPERATURE * 0.85
    let newTemperature0 :=
      if currentTemperature < approachingAbsoluteZeroTemperature ∧
          m.heatingCoolingAmount < 0 then
        let adjustmentFactor := env.powQ
          (currentTemperature / approachingAbsoluteZeroTemperature) 1.35
        currentTemperature +
          m.heatingCoolingAmount * TEMPERATURE_CHANGE_RATE * dt *
            adjustmentFactor
      else
        min (currentTemperature +
          m.heatingCoolingAmount * TEMPERATURE_CHANGE_RATE * dt)
          MAX_TEMPERATURE
    let m1 :=
      if currentTemperature < env.consts.LIQUID_TEMPERATURE ∧
          0 < m.heatingCoolingAmount then
        m.dampUpwardMotion dt
      else m
    let newTemperature :=
      if m1.heatingCoolingAmount ≤ 0 ∧
          Model.getTemperatureInKelvin env m1 = some 0 ∧
          MIN_TEMPERATURE < newTemperature0 then
        MIN_TEMPERATURE
      else newTemperature0
    { m1 with
      temperatureSetPoint := newTemperature
      isoKineticThermostat :=
        { m1.isoKineticThermostat with targetTemperature := newTemperature }
      andersenThermostat :=
        { m1.andersenThermostat with targetTemperature := newTemperature } }
  else m

/-- Pressure-property refresh at the end of MultipleParticleModel.stepInternal:
when the model pressure changed during the step, republish it in atmospheres
(getPressureInAtmospheres multiplies the model pressure by 5). -/
def refreshPressureDisplay (m : Model) (pressureBeforeAlgorithm : ℚ) : Model :=
  if m.verletPressure ≠ pressureBeforeAlgorithm then
    { m with pressure := 5 * m.verletPressure }
  else m

/-- MultipleParticleModel.stepInternal: container-height adjustment,
sub-step computation with residual-time carry, optional injection, the
particle-engine loop, particle-position sync, thermostat, pressure-property
refresh, and temperature-set-point adjustment. -/
def stepInternal (env : Env) (m : Model) (dt : ℚ) : Model :=
  let m0 := { m with particleInjectedThisStep := false }
  let m1 := m0.adjustContainerHeight dt
  let pressureBeforeAlgorithm := m1.verletPressure
  let particleMotionAdvancementTime := dt * PARTICLE_SPEED_UP_FACTOR
  let firstCut : ℕ × ℚ × ℚ :=
    if MAX_PARTICLE_MOTION_TIME_STEP < particleMotionAdvancementTime then
      let n := (Int.floor (particleMotionAdvancementTime /
        MAX_PARTICLE_MOTION_TIME_STEP)).toNat
      (n, MAX_PARTICLE_MOTION_TIME_STEP,
        particleMotionAdvancementTime - n * MAX_PARTICLE_MOTION_TIME_STEP)
    else (1, particleMotionAdvancementTime, m1.residualTime)
  let particleMotionTimeStep := firstCut.2.1
  let secondCut : ℕ × ℚ :=
    if particleMotionTimeStep < firstCut.2.2 then
      (firstCut.1 + 1, firstCut.2.2 - particleMotionTimeStep)
    else (firstCut.1, firstCut.2.2)
  let numParticleEngineSteps := secondCut.1
  let m2 := { m1 with residualTime := secondCut.2 }
  let m3 := injectionStage env m2 dt
  let m4 := (fun mm => monatomicUpdateForcesAndMotion env mm
    particleMotionTimeStep)^[numParticleEngineSteps] m3
  let m5 := m4.syncParticlePositions
  let m6 := runThermostat env m5
  let m7 := refreshPressureDisplay m6 pressureBeforeAlgorithm
  adjustTemperatureSetPoint env m7 dt

/-- MultipleParticleModel.step: run stepInternal whenever the simulation is
playing; there is no guard on the size of dt here. -/
def step (env : Env) (m : Model) (dt : ℚ) : Model :=
  if m.isPlaying then stepInternal env m dt else m

end Model

/-! ### Diatomic phase state changer -/

/-- Number of post-placement settle steps chosen by the switch in
DiatomicPhaseStateChanger.setPhase: 0 for solid, 200 for liquid, 0 for
gas. -/
def postChangeModelSteps : PhaseID → ℕ
  | PhaseID.solid => 0
  | PhaseID.liquid => 200
  | PhaseID.gas => 0

/-- DiatomicPhaseStateChanger.setPhase: dispatch to the per-phase placement
routine, mark all molecules safe and re-sync atom positions, then invoke the
model's step function `postChangeModelSteps` times.  The placement routines,
the safe-marking/sync step, and the model step function are abstract
parameters here; the claim under scrutiny concerns only the invocation
structure. -/
def diatomicSetPhase {M : Type} (setPhaseSolid setPhaseLiquid setPhaseGas
    markSafeAndSyncPositions stepFn : M → M) (phaseID : PhaseID) (m : M) : M :=
  let placed :=
    match phaseID with
    | PhaseID.solid => setPhaseSolid m
    | PhaseID.liquid => setPhaseLiquid m
    | PhaseID.gas => setPhaseGas m
  stepFn^[postChangeModelSteps phaseID] (markSafeAndSyncPositions placed)

/-! ### Dual-atom model (atomic-interactions screen)

Translated from DualAtomModel.js.  The Lennard-Jones calculator class is not
part of this snapshot, so its four pure functions are modelled from the
spec's closed forms (potential 4ε((σ/r)¹² − (σ/r)⁶), its derivative split
into attractive r⁻⁷ and repulsive r⁻¹³ magnitudes, minimum-force distance
σ·2^(1/6)). -/

/-- AtomType enumeration (AtomType.js). -/
inductive AtomType where
  | NEON
  | ARGON
  | OXYGEN
  | HYDROGEN
  | ADJUSTABLE
  deriving Repr, DecidableEq

/-- BondingState enumeration (BondingState.js). -/
inductive BondingState where
  | UNBONDED
  | BONDING
  | BONDED
  deriving Repr, DecidableEq

/-- Modelled from the spec: LjPotentialCalculator.calculateLjPotential,
4ε((σ/r)¹² − (σ/r)⁶). -/
def ljCalculatePotential (sigma epsilon r : ℚ) : ℚ :=
  4 * epsilon * ((sigma / r) ^ 12 - (sigma / r) ^ 6)

/-- Modelled from the spec: the attractive (∝ r⁻⁷) derivative term of the
Lennard-Jones potential, 24εσ⁶/r⁷. -/
def ljAttractiveForce (sigma epsilon r : ℚ) : ℚ :=
  24 * epsilon * sigma ^ 6 / r ^ 7

/-- Modelled from the spec: the repulsive (∝ r⁻¹³) derivative term of the
Lennard-Jones potential, 48εσ¹²/r¹³. -/
def ljRepulsiveForce (sigma epsilon r : ℚ) : ℚ :=
  48 * epsilon * sigma ^ 12 / r ^ 13

/-- Modelled from the spec: LjPotentialCalculator.calculateMinimumForceDistance,
σ·2^(1/6); the sixth root of two comes from the power oracle. -/
def ljMinimumForceDistance (env : Env) (sigma : ℚ) : ℚ :=
  sigma * env.powQ 2 (1 / 6)

/-- State of DualAtomModel: the fixed and movable atoms (the movable one
moves along the x axis), the bonding state machine, the fixed-atom vibration
counter, the Lennard-Jones parameters, and the play/speed controls. -/
structure DualAtomModelState where
  fixedAtomX : ℚ
  fixedAtomY : ℚ
  fixedAtomType : AtomType
  fixedAtomRadius : ℚ
  movableAtomX : ℚ
  movableAtomY : ℚ
  movableAtomType : AtomType
  movableAtomRadius : ℚ
  movableAtomMass : ℚ
  movableVx : ℚ
  movableAx : ℚ
  bondingState : BondingState
  vibrationCounter : ℕ
  potentialWhenAtomReleased : ℚ
  sigma : ℚ
  epsilon : ℚ
  attractiveForce : ℚ
  repulsiveForce : ℚ
  residualTime : ℚ
  isPlaying : Bool
  speedNormal : Bool
  motionPaused : Bool
  minPotentialDistance : ℚ
  bondedOscillationRightDistance : ℚ
  bondedOscillationLeftDistance : ℚ
  rngIndex : ℕ

namespace DualAtomModelState

/-- DualAtomModel.updateForces: the distance of the movable atom from the
origin, floored at one-eighth of the summed radii, feeds the attractive and
repulsive Lennard-Jones force terms. -/
def updateForces (env : Env) (s : DualAtomModelState) : DualAtomModelState :=
  let distance0 := env.sqrtQ (s.movableAtomX ^ 2 + s.movableAtomY ^ 2)
  let distance :=
    if distance0 < (s.fixedAtomRadius + s.movableAtomRadius) / 8 then
      (s.fixedAtomRadius + s.movableAtomRadius) / 8
    else distance0
  { s with
    attractiveForce := ljAttractiveForce s.sigma s.epsilon distance
    repulsiveForce := ljRepulsiveForce s.sigma s.epsilon distance }

/-- DualAtomModel.updateAtomMotion: acceleration from the force difference
(mass converted to kilograms), velocity capped at 5000, forward Euler
position update along x. -/
def updateAtomMotion (s : DualAtomModelState) (dt : ℚ) : DualAtomModelState :=
  let mass := s.movableAtomMass * 1.6605402e-27
  let acceleration := (s.repulsiveForce - s.attractiveForce) / mass
  let s1 := { s with movableAx := acceleration }
  if ¬s1.motionPaused then
    let newVelocity := min (s1.movableVx + acceleration * dt) 5000
    { s1 with
      movableVx := newVelocity
      movableAtomX := s1.movableAtomX + newVelocity * dt
      movableAtomY := 0 }
  else s1

/-- Iteration core of DualAtomModel.approximateEquivalentPotentialDistance:
step the candidate distance down until the potential crosses the target. -/
def approxPotentialLoop (sigma epsilon targetPotential delta : ℚ) :
    ℕ → ℚ → ℚ
  | 0, equivalentPotentialDistance => equivalentPotentialDistance
  | fuel + 1, equivalentPotentialDistance =>
    if targetPotential <
        ljCalculatePotential sigma epsilon equivalentPotentialDistance then
      equivalentPotentialDistance
    else
      approxPotentialLoop sigma epsilon targetPotential delta fuel
        (equivalentPotentialDistance - delta)

/-- DualAtomModel.approximateEquivalentPotentialDistance: find the distance
left of the potential minimum with the same potential as the given distance
right of it, by at most 100 fixed-size steps. -/
def approximateEquivalentPotentialDistance (env : Env)
    (s : DualAtomModelState) (distance : ℚ) : ℚ :=
  if distance < ljMinimumForceDistance env s.sigma then 0
  else
    let totalSpanDistance := distance - s.sigma
    let distanceChangePerIteration := totalSpanDistance / 100
    let targetPotential := ljCalculatePotential s.sigma s.epsilon distance
    approxPotentialLoop s.sigma s.epsilon targetPotential
      distanceChangePerIteration 100 (ljMinimumForceDistance env s.sigma)

/-- DualAtomModel.stepFixedAtomVibration: while the vibration counter runs,
alternate the fixed atom between the origin and a random offset scaled by
the stored potential (winding down over the last quarter of the counter);
afterwards snap it back to the origin. -/
def stepFixedAtomVibration (env : Env) (s : DualAtomModelState) :
    DualAtomModelState :=
  if 0 < s.vibrationCounter then
    let vibrationScaleFactor : ℚ :=
      if s.vibrationCounter < 72 / 4 then (s.vibrationCounter : ℚ) / (72 / 4)
      else 1
    let s1 :=
      if s.fixedAtomX ≠ 0 then { s with fixedAtomX := 0, fixedAtomY := 0 }
      else
        { s with
          fixedAtomX := (env.nextDouble s.rngIndex * 2 - 1) *
            s.potentialWhenAtomReleased * 5e19 * vibrationScaleFactor
          rngIndex := s.rngIndex + 1 }
    { s1 with vibrationCounter := s1.vibrationCounter - 1 }
  else if s.fixedAtomX ≠ 0 ∨ s.fixedAtomY ≠ 0 then
    { s with fixedAtomX := 0, fixedAtomY := 0 }
  else s

/-- DualAtomModel.updateBondingState: the oxygen-oxygen bonding state
machine (unbonded → bonding when the atom starts to escape close by, bonding
→ bonded when attraction overtakes repulsion, bonded → forced oscillation
between the two equal-potential distances). -/
def updateBondingState (env : Env) (s : DualAtomModelState) :
    DualAtomModelState :=
  if s.movableAtomType = AtomType.OXYGEN ∧
      s.fixedAtomType = AtomType.OXYGEN then
    match s.bondingState with
    | BondingState.UNBONDED =>
      if 100 < s.movableVx ∧
          env.sqrtQ ((s.movableAtomX - s.fixedAtomX) ^ 2 +
            (s.movableAtomY - s.fixedAtomY) ^ 2) <
            s.fixedAtomRadius * 2.5 then
        { s with bondingState := BondingState.BONDING, vibrationCounter := 72 }
      else s
    | BondingState.BONDING =>
      if s.repulsiveForce < s.attractiveForce then
        let minPotentialDistance := ljMinimumForceDistance env s.sigma
        let rightDistance := minPotentialDistance + 0.06 * s.movableAtomRadius
        let s1 := { s with movableAx := 0, movableVx := 0 }
        let leftDistance :=
          approximateEquivalentPotentialDistance env s1 rightDistance
        stepFixedAtomVibration env
          { s1 with
            minPotentialDistance := minPotentialDistance
            bondedOscillationRightDistance := rightDistance
            bondedOscillationLeftDistance := leftDistance
            bondingState := BondingState.BONDED }
      else s
    | BondingState.BONDED =>
      let s1 := { s with movableAx := 0, movableVx := 0 }
      let s2 :=
        if s1.minPotentialDistance < s1.movableAtomX then
          { s1 with
            movableAtomX := s1.bondedOscillationLeftDistance
            movableAtomY := 0 }
        else
          { s1 with
            movableAtomX := s1.bondedOscillationRightDistance
            movableAtomY := 0 }
      if 0 < s2.vibrationCounter then stepFixedAtomVibration env s2 else s2
  else s

/-- DualAtomModel.stepInternal: split dt into at most MAX_TIME_STEP = 0.005
slices (the loop bound is a JavaScript float, so the loop body runs a
ceiling number of times), carry residual time, and run
forces/motion/bonding per slice. -/
def stepInternal (env : Env) (s : DualAtomModelState) (dt : ℚ) :
    DualAtomModelState :=
  let firstCut : ℚ × ℚ × ℚ :=
    if 0.005 < dt then
      let iterations := dt / 0.005
      (iterations, s.residualTime + (dt - iterations * 0.005), 0.005)
    else (1, s.residualTime, dt)
  let modelTimeStep := firstCut.2.2
  let secondCut : ℚ × ℚ :=
    if modelTimeStep < firstCut.2.1 then
      (firstCut.1 + 1, firstCut.2.1 - modelTimeStep)
    else (firstCut.1, firstCut.2.1)
  let loopCount := (Int.ceil secondCut.1).toNat
  let s0 := { s with residualTime := secondCut.2 }
  (fun st =>
    let st1 := updateForces env st
    let st2 :=
      if st1.bondingState ≠ BondingState.BONDED then
        updateAtomMotion st1 modelTimeStep
      else st1
    updateBondingState env st2)^[loopCount] s0

/-- DualAtomModel.step: a simulation time step larger than 1.0 second is
ignored entirely (backgrounded-tab guard); otherwise, when playing, the time
step is speed-adjusted and handed to stepInternal. -/
def step (env : Env) (s : DualAtomModelState) (simulationTimeStep : ℚ) :
    DualAtomModelState :=
  if 1 < simulationTimeStep then s
  else if s.isPlaying then
    let adjustedTimeStep :=
      if s.speedNormal then simulationTimeStep * 1.5
      else simulationTimeStep * 0.5
    stepInternal env s adjustedTimeStep
  else s

end DualAtomModelState

/-! ### Concrete sample values used by witnesses -/

/-- Concrete oracle environment: the oracle functions are irrelevant to the
properties checked on concrete states, so they are constant stand-ins, and
the spec-modelled constants carry plausible values. -/
def defaultEnv : Env where
  sqrtQ := fun _ => 0
  cosQ := fun _ => 0
  sinQ := fun _ => 0
  powQ := fun _ _ => 0
  piQ := 0
  nextDouble := fun _ => 0
  nextGaussian := fun _ => 0
  consts := ⟨0.15, 0.34, 1⟩
  tempConsts := fun _ => ⟨24.5, 44.4, 0.26, 0.8⟩

/-- Concrete empty monatomic data set. -/
def exampleDataSet : MoleculeDataSet where
  atomsPerMolecule := 1
  moleculeCenterOfMassPositions := []
  moleculeVelocities := []
  moleculeForces := []
  nextMoleculeForces := []
  moleculeRotationAngles := []
  moleculeRotationRates := []
  moleculeTorques := []
  insideContainer := []
  atomPositions := []
  moleculeMass := 1
  moleculeRotationalInertia := 1
  numberOfSafeMolecules := 0
  capacity := 100

/-- Concrete dual-atom model state (two neon atoms at rest). -/
def exampleDualState : DualAtomModelState where
  fixedAtomX := 0
  fixedAtomY := 0
  fixedAtomType := AtomType.NEON
  fixedAtomRadius := 154
  movableAtomX := 300
  movableAtomY := 0
  movableAtomType := AtomType.NEON
  movableAtomRadius := 154
  movableAtomMass := 20.1797
  movableVx := 0
  movableAx := 0
  bondingState := BondingState.UNBONDED
  vibrationCounter := 0
  potentialWhenAtomReleased := 0
  sigma := 308
  epsilon := 0.3
  attractiveForce := 0
  repulsiveForce := 0
  residualTime := 0
  isPlaying := true
  speedNormal := true
  motionPaused := false
  minPotentialDistance := 0
  bondedOscillationRightDistance := 0
  bondedOscillationLeftDistance := 0
  rngIndex := 0

/-- Concrete model state used by witnesses and counterexamples. -/
def exampleModel : Model where
  particleContainerHeight := 10000
  targetContainerHeight := 10000
  isExploded := false
  temperatureSetPoint := 0.1
  pressure := 0
  substance := SubstanceType.NEON
  isPlaying := true
  heatingCoolingAmount := 0
  particles := [⟨0, 0⟩]
  moleculeDataSet := exampleDataSet
  normalizedContainerWidth := 30
  gravitationalAcceleration := -0.045
  normalizedContainerHeight := 30
  normalizedTotalContainerHeight := 30
  normalizedLidVelocityY := 0
  particleDiameter := 330
  minModelTemperature := 0.05
  residualTime := 0
  numMoleculesAwaitingInjection := 0
  moleculeInjectionHoldoffTimer := 0
  injectionPointX := 0
  injectionPointY := 0
  heightChangeThisStep := 0
  particleInjectedThisStep := false
  verletEpsilon := 1
  verletPressure := 0
  verletQueue := ⟨[]⟩
  verletTimeAbove := 0
  lidChangedParticleVelocity := false
  calculatedTemperature := 0.1
  isoKineticThermostat := ⟨0.1, 0⟩
  andersenThermostat := ⟨0.1, 0.05⟩
  thermostatRunPreviousStep := ThermostatChoice.noThermostat
  averageTemperatureDifference := ⟨10, 0, 0, List.replicate 10 0, 0, 0⟩
  rngIndex := 0

/-! ## Theorems -/

/-! ### Helper lemmas about `updAt` -/

theorem updAt_length {α : Type} (l : List α) (k : ℕ) (g : α → α) :
    (updAt l k g).length = l.length := by
  induction l generalizing k with
  | nil => rfl
  | cons a as ih =>
    cases k with
    | zero => rfl
    | succ k => simpa [updAt] using ih k

theorem updAt_id {α : Type} (l : List α) (k : ℕ) (g : α → α)
    (hg : ∀ a, g a = a) : updAt l k g = l := by
  induction l generalizing k with
  | nil => rfl
  | cons a as ih =>
    cases k with
    | zero => simp [updAt, hg]
    | succ k => simp [updAt, ih k]

theorem map_updAt {α β : Type} (m : α → β) (l : List α) (k : ℕ) (g : α → α)
    (g' : β → β) (hcomm : ∀ a, m (g a) = g' (m a)) :
    (updAt l k g).map m = updAt (l.map m) k g' := by
  induction l generalizing k with
  | nil => rfl
  | cons a as ih =>
    cases k with
    | zero => simp [updAt, hcomm]
    | succ k => simp [updAt, ih k]

theorem sum_updAt_add (l : List ℚ) (k : ℕ) (hk : k < l.length) (a : ℚ) :
    (updAt l k (· + a)).sum = l.sum + a := by
  induction l generalizing k with
  | nil => simp at hk
  | cons b bs ih =>
    cases k with
    | zero => simp [updAt]; ring
    | succ k =>
      have := ih k (by simpa using hk)
      simp [updAt, this]; ring

theorem sum_updAt_sub (l : List ℚ) (k : ℕ) (hk : k < l.length) (a : ℚ) :
    (updAt l k (· - a)).sum = l.sum - a := by
  induction l generalizing k with
  | nil => simp at hk
  | cons b bs ih =>
    cases k with
    | zero => simp [updAt]; ring
    | succ k =>
      have := ih k (by simpa using hk)
      simp [updAt, this]; ring

theorem pairList_mem_bounds {n : ℕ} {ij : ℕ × ℕ} (h : ij ∈ pairList n) :
    ij.1 < n ∧ ij.2 < n := by
  simp only [pairList, List.mem_flatten, List.mem_map] at h
  obtain ⟨l, ⟨i, hi, rfl⟩, hmem⟩ := h
  obtain ⟨j, hj, rfl⟩ := List.mem_map.mp hmem
  have hj' := List.mem_filter.mp hj
  exact ⟨List.mem_range.mp hi, List.mem_range.mp hj'.1⟩

theorem applyPairForce_length (epsilon : ℚ) (ps nf : List (Vec2 ℚ))
    (ij : ℕ × ℕ) : (applyPairForce epsilon ps nf ij).length = nf.length := by
  simp [applyPairForce, updAt_length]

theorem applyPairForce_sum (epsilon : ℚ) (ps nf : List (Vec2 ℚ)) (ij : ℕ × ℕ)
    (hi : ij.1 < nf.length) (hj : ij.2 < nf.length) :
    Vec2.sumList (applyPairForce epsilon ps nf ij) = Vec2.sumList nf := by
  obtain ⟨i, j⟩ := ij
  set f := ljPairForce epsilon (ps.getD i ⟨0, 0⟩) (ps.getD j ⟨0, 0⟩) with hf
  have hx1 : ((updAt nf i fun v => v.addXY f.x f.y).map Vec2.x)
      = updAt (nf.map Vec2.x) i (· + f.x) :=
    map_updAt _ _ _ _ _ (fun a => rfl)
  have hy1 : ((updAt nf i fun v => v.addXY f.x f.y).map Vec2.y)
      = updAt (nf.map Vec2.y) i (· + f.y) :=
    map_updAt _ _ _ _ _ (fun a => rfl)
  have hx2 : ((updAt (updAt nf i fun v => v.addXY f.x f.y) j
      fun v => v.subtractXY f.x f.y).map Vec2.x)
      = updAt ((updAt nf i fun v => v.addXY f.x f.y).map Vec2.x) j (· - f.x) :=
    map_updAt _ _ _ _ _ (fun a => rfl)
  have hy2 : ((updAt (updAt nf i fun v => v.addXY f.x f.y) j
      fun v => v.subtractXY f.x f.y).map Vec2.y)
      = updAt ((updAt nf i fun v => v.addXY f.x f.y).map Vec2.y) j (· - f.y) :=
    map_updAt _ _ _ _ _ (fun a => rfl)
  have hleni : i < (nf.map Vec2.x).length := by simpa using hi
  have hleni' : i < (nf.map Vec2.y).length := by simpa using hi
  have hlenj : j < (updAt (nf.map Vec2.x) i (· + f.x)).length := by
    simpa [updAt_length] using hj
  have hlenj' : j < (updAt (nf.map Vec2.y) i (· + f.y)).length := by
    simpa [updAt_length] using hj
  simp only [applyPairForce, Vec2.sumList, ← hf]
  rw [hx2, hy2, hx1, hy1, sum_updAt_sub _ _ hlenj, sum_updAt_sub _ _ hlenj',
    sum_updAt_add _ _ hleni, sum_updAt_add _ _ hleni']
  simp only [Vec2.mk.injEq]
  constructor <;> ring

theorem foldl_pairs_sum (epsilon : ℚ) (ps : List (Vec2 ℚ))
    (pairs : List (ℕ × ℕ)) (nf : List (Vec2 ℚ))
    (hb : ∀ ij ∈ pairs, ij.1 < nf.length ∧ ij.2 < nf.length) :
    Vec2.sumList (pairs.foldl (applyPairForce epsilon ps) nf)
      = Vec2.sumList nf := by
  induction pairs generalizing nf with
  | nil => rfl
  | cons p rest ih =>
    have hp := hb p (by simp)
    have hrest : ∀ ij ∈ rest,
        ij.1 < (applyPairForce epsilon ps nf p).length ∧
        ij.2 < (applyPairForce epsilon ps nf p).length := by
      intro ij hij
      have := hb ij (by simp [hij])
      simpa [applyPairForce_length] using this
    calc Vec2.sumList ((p :: rest).foldl (applyPairForce epsilon ps) nf)
        = Vec2.sumList (rest.foldl (applyPairForce epsilon ps)
            (applyPairForce epsilon ps nf p)) := rfl
      _ = Vec2.sumList (applyPairForce epsilon ps nf p) := ih _ hrest
      _ = Vec2.sumList nf := applyPairForce_sum _ _ _ _ hp.1 hp.2

/-- C1: the monatomic pairwise-interaction-force pass adds each unordered
pair's force contribution to one molecule's next-step force accumulator and
subtracts the identical values from the other molecule's, so the pass leaves
the vector sum of all next-step force accumulators exactly unchanged
(Newton's third law): the sum of all pairwise contributions is zero. -/
theorem updateInteractionForces_newtons_third_law (epsilon : ℚ)
    (positions nextForces : List (Vec2 ℚ))
    (hlen : nextForces.length = positions.length) :
    Vec2.sumList (updateInteractionForces epsilon positions nextForces)
      = Vec2.sumList nextForces := by
  refine foldl_pairs_sum epsilon positions _ nextForces ?_
  intro ij hij
  have := pairList_mem_bounds hij
  omega

/-- Witness for C1 at a concrete two-molecule data set. -/
theorem updateInteractionForces_newtons_third_law_witness :
    ([(⟨0, 0⟩ : Vec2 ℚ), ⟨0, 0⟩].length = [(⟨0, 0⟩ : Vec2 ℚ), ⟨1, 1⟩].length)
    ∧ Vec2.sumList (updateInteractionForces 1 [⟨0, 0⟩, ⟨1, 1⟩] [⟨0, 0⟩, ⟨0, 0⟩])
        = Vec2.sumList [⟨0, 0⟩, ⟨0, 0⟩] :=
  ⟨rfl, updateInteractionForces_newtons_third_law 1 [⟨0, 0⟩, ⟨1, 1⟩]
    [⟨0, 0⟩, ⟨0, 0⟩] rfl⟩

/-- C9: the squared distance is floored via `Math.max` with
MIN_DISTANCE_SQUARED = 0.90 before the zero test, so `distanceSqrd === 0` is
false for all inputs and the coincident-particle special-case branch
(`dx = 1, dy = 1, distanceSqrd = 2`) is unreachable: the pair force equals
the one computed with the branch deleted. -/
theorem coincident_special_case_unreachable :
    (∀ dx dy : ℚ, flooredDistanceSqrd dx dy ≠ 0) ∧
      ∀ (epsilon : ℚ) (pI pJ : Vec2 ℚ),
        ljPairForce epsilon pI pJ = ljPairForceNoSpecialCase epsilon pI pJ := by
  have hpos : ∀ dx dy : ℚ, flooredDistanceSqrd dx dy ≠ 0 := by
    intro dx dy
    have : MIN_DISTANCE_SQUARED ≤ flooredDistanceSqrd dx dy := le_max_right _ _
    have h09 : (0 : ℚ) < MIN_DISTANCE_SQUARED := by norm_num [MIN_DISTANCE_SQUARED]
    exact ne_of_gt (lt_of_lt_of_le h09 this)
  refine ⟨hpos, ?_⟩
  intro epsilon pI pJ
  simp only [ljPairForce, ljPairForceNoSpecialCase,
    if_neg (hpos (pI.x - pJ.x) (pI.y - pJ.y))]

/-- C5: a pair whose squared center-of-mass distance is at least the
interaction threshold 6.25 contributes exactly zero force, and the
accumulation step for that pair leaves the next-step force array unchanged. -/
theorem far_pair_contributes_nothing (epsilon : ℚ)
    (positions nextForces : List (Vec2 ℚ)) (i j : ℕ)
    (h : PARTICLE_INTERACTION_DISTANCE_THRESH_SQRD ≤
      (let pI := positions.getD i ⟨0, 0⟩
       let pJ := positions.getD j ⟨0, 0⟩
       (pI.x - pJ.x) * (pI.x - pJ.x) + (pI.y - pJ.y) * (pI.y - pJ.y))) :
    ljPairForce epsilon (positions.getD i ⟨0, 0⟩) (positions.getD j ⟨0, 0⟩)
        = ⟨0, 0⟩ ∧
      applyPairForce epsilon positions nextForces (i, j) = nextForces := by
  simp only at h
  set pI := positions.getD i ⟨0, 0⟩
  set pJ := positions.getD j ⟨0, 0⟩
  have hraw : MIN_DISTANCE_SQUARED ≤
      (pI.x - pJ.x) * (pI.x - pJ.x) + (pI.y - pJ.y) * (pI.y - pJ.y) := by
    refine le_trans ?_ h
    norm_num [MIN_DISTANCE_SQUARED, PARTICLE_INTERACTION_DISTANCE_THRESH_SQRD]
  have hfloor : flooredDistanceSqrd (pI.x - pJ.x) (pI.y - pJ.y)
      = (pI.x - pJ.x) * (pI.x - pJ.x) + (pI.y - pJ.y) * (pI.y - pJ.y) :=
    max_eq_left hraw
  have hraw0 : (pI.x - pJ.x) * (pI.x - pJ.x) + (pI.y - pJ.y) * (pI.y - pJ.y)
      ≠ 0 := by
    have hpos : (0 : ℚ) < PARTICLE_INTERACTION_DISTANCE_THRESH_SQRD := by
      norm_num [PARTICLE_INTERACTION_DISTANCE_THRESH_SQRD]
    exact ne_of_gt (lt_of_lt_of_le hpos h)
  have hforce : ljPairForce epsilon pI pJ = ⟨0, 0⟩ := by
    simp only [ljPairForce, hfloor, if_neg hraw0]
    rw [if_neg (not_lt.mpr h)]
  refine ⟨hforce, ?_⟩
  simp only [applyPairForce, hforce]
  rw [updAt_id, updAt_id]
  · intro a; simp [Vec2.addXY]
  · intro a; simp [Vec2.subtractXY]

/-- C6: after the monatomic velocity-update pass (with the real square root,
which is what `Vector2.magnitude` computes), every molecule's velocity
magnitude is at most 10: velocities whose velocity-Verlet update would exceed
this are capped at magnitude 10. -/
theorem updateVelocities_magnitude_cap (minModelTemperature timeStep : ℝ)
    (velocities forces nextForces : List (Vec2 ℝ)) :
    ∀ w ∈ (updateVelocitiesAndRotationRates Real.sqrt minModelTemperature
        timeStep velocities forces nextForces).velocities,
      Real.sqrt w.mag2 ≤ 10 := by
  intro w hw
  simp only [updateVelocitiesAndRotationRates, List.mem_map] at hw
  obtain ⟨⟨v, f, nf⟩, hmem, rfl⟩ := hw
  simp only [verletVelocityOne]
  set vv : Vec2 ℝ := ⟨v.x + timeStep / 2 * (f.x + nf.x),
    v.y + timeStep / 2 * (f.y + nf.y)⟩ with hvv
  by_cases hcap : 10 < Real.sqrt vv.mag2
  · rw [if_pos hcap]
    have hm : (0 : ℝ) ≤ vv.mag2 :=
      add_nonneg (mul_self_nonneg _) (mul_self_nonneg _)
    have hsq : Real.sqrt vv.mag2 ^ 2 = vv.mag2 := Real.sq_sqrt hm
    have hspos : (0 : ℝ) < Real.sqrt vv.mag2 := by linarith
    have hm0 : vv.mag2 ≠ 0 := by
      intro h0
      rw [h0, Real.sqrt_zero] at hcap
      linarith
    have hmagnew :
        (Vec2.mag2 ⟨vv.x * (10 / Real.sqrt vv.mag2),
          vv.y * (10 / Real.sqrt vv.mag2)⟩) = 100 := by
      have hexp : (Vec2.mag2 ⟨vv.x * (10 / Real.sqrt vv.mag2),
          vv.y * (10 / Real.sqrt vv.mag2)⟩)
          = vv.mag2 * (10 / Real.sqrt vv.mag2) ^ 2 := by
        simp only [Vec2.mag2]
        ring
      rw [hexp, div_pow, hsq]
      field_simp
      norm_num
    rw [hmagnew]
    rw [show (100 : ℝ) = 10 ^ 2 by norm_num,
      Real.sqrt_sq (by norm_num : (0 : ℝ) ≤ 10)]
  · rw [if_neg hcap]
    exact le_of_not_lt hcap

/-- Witness for C6 at a concrete one-molecule data set at rest. -/
theorem updateVelocities_magnitude_cap_witness :
    (⟨0, 0⟩ : Vec2 ℝ) ∈ (updateVelocitiesAndRotationRates Real.sqrt 0 1
        [⟨0, 0⟩] [⟨0, 0⟩] [⟨0, 0⟩]).velocities ∧
      Real.sqrt (Vec2.mag2 (⟨0, 0⟩ : Vec2 ℝ)) ≤ 10 := by
  have hmem : (⟨0, 0⟩ : Vec2 ℝ) ∈ (updateVelocitiesAndRotationRates Real.sqrt
      0 1 [⟨0, 0⟩] [⟨0, 0⟩] [⟨0, 0⟩]).velocities := by
    simp [updateVelocitiesAndRotationRates, verletVelocityOne, Vec2.mag2]
  exact ⟨hmem, updateVelocities_magnitude_cap 0 1 [⟨0, 0⟩] [⟨0, 0⟩] [⟨0, 0⟩]
    _ hmem⟩

/-! ### Pressure bookkeeping lemmas -/

theorem updatePressure_step_above (tsp mmt : ℚ) (s : PressureBookkeeping)
    (p dt : ℚ) (h : s.exploded = false)
    (hw : EXPLOSION_PRESSURE < windowedPressure tsp mmt s p dt) :
    (updatePressure tsp mmt s p dt).timeAboveExplosionPressure
        = s.timeAboveExplosionPressure + dt ∧
      ((updatePressure tsp mmt s p dt).exploded = true ↔
        EXPLOSION_TIME < s.timeAboveExplosionPressure + dt) := by
  simp only [windowedPressure] at hw
  simp only [updatePressure, h]
  rw [if_neg (by simp), if_pos hw]
  by_cases ht : EXPLOSION_TIME < s.timeAboveExplosionPressure + dt
  · rw [if_pos ht]
    exact ⟨rfl, by simpa using ht⟩
  · rw [if_neg ht]
    exact ⟨rfl, by simpa [h] using ht⟩

theorem updatePressure_step_below (tsp mmt : ℚ) (s : PressureBookkeeping)
    (p dt : ℚ) (h : s.exploded = false)
    (hw : windowedPressure tsp mmt s p dt ≤ EXPLOSION_PRESSURE) :
    (updatePressure tsp mmt s p dt).timeAboveExplosionPressure = 0 ∧
      (updatePressure tsp mmt s p dt).exploded = false := by
  simp only [windowedPressure] at hw
  simp only [updatePressure, h]
  rw [if_neg (by simp), if_neg (not_lt.mpr hw)]
  exact ⟨rfl, rfl⟩

theorem updatePressure_exploded_persists (tsp mmt : ℚ)
    (s : PressureBookkeeping) (p dt : ℚ) (h : s.exploded = true) :
    (updatePressure tsp mmt s p dt).exploded = true := by
  simp only [updatePressure, h]
  rw [if_pos (by simp)]

theorem updatePressureRun_exploded_persists (tsp mmt : ℚ)
    (calls : List (ℚ × ℚ)) :
    ∀ s : PressureBookkeeping, s.exploded = true →
      (updatePressureRun tsp mmt s calls).exploded = true := by
  induction calls with
  | nil => intro s h; exact h
  | cons c rest ih =>
    intro s h
    exact ih _ (updatePressure_exploded_persists tsp mmt s c.1 c.2 h)

theorem explosion_if_sustained (tsp mmt : ℚ) (calls : List (ℚ × ℚ)) :
    ∀ s : PressureBookkeeping, s.exploded = false →
      allAboveThreshold tsp mmt s calls = true →
      calls ≠ [] →
      EXPLOSION_TIME < s.timeAboveExplosionPressure + (calls.map Prod.snd).sum →
      (updatePressureRun tsp mmt s calls).exploded = true := by
  induction calls with
  | nil => intro s _ _ hne _; exact absurd rfl hne
  | cons c rest ih =>
    intro s h hall _ hsum
    simp only [allAboveThreshold, h, Bool.false_or, Bool.and_eq_true,
      decide_eq_true_eq] at hall
    obtain ⟨hw, hrest⟩ := hall
    have hstep := updatePressure_step_above tsp mmt s c.1 c.2 h hw
    set s' := updatePressure tsp mmt s c.1 c.2 with hs'
    by_cases ht : EXPLOSION_TIME < s.timeAboveExplosionPressure + c.2
    · have hex : s'.exploded = true := hstep.2.mpr ht
      exact updatePressureRun_exploded_persists tsp mmt rest s' hex
    · have hex : s'.exploded = false := by
        cases hb : s'.exploded
        · rfl
        · exact absurd (hstep.2.mp hb) ht
      have hne' : rest ≠ [] := by
        intro hnil
        rw [hnil] at hsum
        simp at hsum
        exact ht (by linarith)
      have hsum' : EXPLOSION_TIME <
          s'.timeAboveExplosionPressure + (rest.map Prod.snd).sum := by
        rw [hstep.1]
        simp only [List.map_cons, List.sum_cons] at hsum
        linarith
      exact ih s' hex hrest hne' hsum'

theorem no_explosion_if_below (tsp mmt : ℚ) (calls : List (ℚ × ℚ)) :
    ∀ s : PressureBookkeeping, s.exploded = false →
      allAtOrBelowThreshold tsp mmt s calls = true →
      (updatePressureRun tsp mmt s calls).exploded = false := by
  induction calls with
  | nil => intro s h _; exact h
  | cons c rest ih =>
    intro s h hall
    simp only [allAtOrBelowThreshold, Bool.and_eq_true, decide_eq_true_eq]
      at hall
    obtain ⟨hw, hrest⟩ := hall
    have hstep := updatePressure_step_below tsp mmt s c.1 c.2 h hw
    exact ih _ hstep.2 hrest

/-- C2: the explosion logic of AbstractVerletAlgorithm.updatePressure.  On a
single call from a non-exploded state, when the windowed pressure is above
41 the container explodes exactly when the accumulated above-threshold time
exceeds 1 second, and when the windowed pressure is at or below 41 the
above-threshold timer is reset to zero and no explosion occurs; consequently,
over any sequence of calls, sustained above-threshold pressure for total time
exceeding 1 second sets the exploded flag, while a sequence whose windowed
pressure never exceeds 41 never triggers an explosion. -/
theorem pressure_explosion_behavior :
    (∀ (tsp mmt : ℚ) (s : PressureBookkeeping) (p dt : ℚ),
      s.exploded = false →
      (EXPLOSION_PRESSURE < windowedPressure tsp mmt s p dt →
        (updatePressure tsp mmt s p dt).timeAboveExplosionPressure
            = s.timeAboveExplosionPressure + dt ∧
        ((updatePressure tsp mmt s p dt).exploded = true ↔
          EXPLOSION_TIME < s.timeAboveExplosionPressure + dt)) ∧
      (windowedPressure tsp mmt s p dt ≤ EXPLOSION_PRESSURE →
        (updatePressure tsp mmt s p dt).timeAboveExplosionPressure = 0 ∧
        (updatePressure tsp mmt s p dt).exploded = false)) ∧
    (∀ (tsp mmt : ℚ) (s : PressureBookkeeping) (calls : List (ℚ × ℚ)),
      s.exploded = false →
      s.timeAboveExplosionPressure = 0 →
      allAboveThreshold tsp mmt s calls = true →
      EXPLOSION_TIME < (calls.map Prod.snd).sum →
      (updatePressureRun tsp mmt s calls).exploded = true) ∧
    (∀ (tsp mmt : ℚ) (s : PressureBookkeeping) (calls : List (ℚ × ℚ)),
      s.exploded = false →
      allAtOrBelowThreshold tsp mmt s calls = true →
      (updatePressureRun tsp mmt s calls).exploded = false) := by
  refine ⟨?_, ?_, ?_⟩
  · intro tsp mmt s p dt h
    exact ⟨updatePressure_step_above tsp mmt s p dt h,
      updatePressure_step_below tsp mmt s p dt h⟩
  · intro tsp mmt s calls h ht hall hsum
    have hne : calls ≠ [] := by
      intro hnil
      rw [hnil] at hsum
      norm_num [EXPLOSION_TIME] at hsum
    exact explosion_if_sustained tsp mmt calls s h hall hne (by rw [ht]; linarith)
  · intro tsp mmt s calls h hall
    exact no_explosion_if_below tsp mmt calls s h hall

/-- Witness for C2: two 0.6-second calls at windowed pressure 50 and then
100 (both above 41) accumulate 1.2 seconds above the threshold and explode
the container. -/
theorem pressure_explosion_behavior_witness :
    ((⟨⟨[]⟩, 0, 0, false⟩ : PressureBookkeeping).exploded = false) ∧
    ((⟨⟨[]⟩, 0, 0, false⟩ : PressureBookkeeping).timeAboveExplosionPressure
      = 0) ∧
    allAboveThreshold 1 0 ⟨⟨[]⟩, 0, 0, false⟩
      [(600, 3 / 5), (600, 3 / 5)] = true ∧
    EXPLOSION_TIME < (([((600 : ℚ), (3 / 5 : ℚ)), (600, 3 / 5)]).map
      Prod.snd).sum ∧
    (updatePressureRun 1 0 ⟨⟨[]⟩, 0, 0, false⟩
      [(600, 3 / 5), (600, 3 / 5)]).exploded = true := by
  have hall : allAboveThreshold 1 0 ⟨⟨[]⟩, 0, 0, false⟩
      [(600, 3 / 5), (600, 3 / 5)] = true := by
    norm_num [allAboveThreshold, windowedPressure, updatePressure,
      TimeSpanDataQueue.add, TimeSpanDataQueue.keepWithin,
      TimeSpanDataQueue.total, PRESSURE_CALC_TIME_WINDOW, EXPLOSION_PRESSURE,
      EXPLOSION_TIME, max_def]
  have hsum : EXPLOSION_TIME < (([((600 : ℚ), (3 / 5 : ℚ)),
      (600, 3 / 5)]).map Prod.snd).sum := by
    norm_num [EXPLOSION_TIME]
  exact ⟨rfl, rfl, hall, hsum,
    pressure_explosion_behavior.2.1 1 0 ⟨⟨[]⟩, 0, 0, false⟩
      [(600, 3 / 5), (600, 3 / 5)] rfl rfl hall hsum⟩

/-- C4: the Andersen thermostat's per-step damping coefficients are exactly
0.9999 in both axes whenever the target temperature is above the
minimum-temperature threshold, and are tightened when the target is at or
below the threshold, with gammaX = 0.992 and the Y coefficient 0.999 closer
to 1 than the X coefficient (weaker damping) so particles keep settling
under gravity near absolute zero. -/
theorem andersen_damping_coefficients (targetTemperature
    minModelTemperature : ℚ) :
    (minModelTemperature < targetTemperature →
      andersenGammas targetTemperature minModelTemperature
        = (0.9999, 0.9999, targetTemperature)) ∧
    (targetTemperature ≤ minModelTemperature →
      (andersenGammas targetTemperature minModelTemperature).1 = 0.992 ∧
      (andersenGammas targetTemperature minModelTemperature).2.1 = 0.999 ∧
      1 - (andersenGammas targetTemperature minModelTemperature).2.1
        < 1 - (andersenGammas targetTemperature minModelTemperature).1) := by
  constructor
  · intro h
    rw [andersenGammas, if_neg (not_le.mpr h)]
  · intro h
    rw [andersenGammas, if_pos h]
    norm_num

/-- Witness for C4 at targets above and below the threshold. -/
theorem andersen_damping_coefficients_witness :
    (andersenGammas 1 0 = (0.9999, 0.9999, 1)) ∧
    ((andersenGammas 0 1).1 = 0.992 ∧ (andersenGammas 0 1).2.1 = 0.999 ∧
      1 - (andersenGammas 0 1).2.1 < 1 - (andersenGammas 0 1).1) :=
  ⟨(andersen_damping_coefficients 1 0).1 (by norm_num),
    (andersen_damping_coefficients 0 1).2 (by norm_num)⟩

/-- C7: DiatomicPhaseStateChanger.setPhase runs the model's step function
exactly 200 times after a LIQUID placement and exactly 0 times after a SOLID
or GAS placement. -/
theorem diatomicSetPhase_settle_steps {M : Type}
    (setPhaseSolid setPhaseLiquid setPhaseGas markSafeAndSyncPositions
      stepFn : M → M) (m : M) :
    postChangeModelSteps PhaseID.liquid = 200 ∧
    postChangeModelSteps PhaseID.solid = 0 ∧
    postChangeModelSteps PhaseID.gas = 0 ∧
    diatomicSetPhase setPhaseSolid setPhaseLiquid setPhaseGas
        markSafeAndSyncPositions stepFn PhaseID.liquid m
      = stepFn^[200] (markSafeAndSyncPositions (setPhaseLiquid m)) ∧
    diatomicSetPhase setPhaseSolid setPhaseLiquid setPhaseGas
        markSafeAndSyncPositions stepFn PhaseID.solid m
      = markSafeAndSyncPositions (setPhaseSolid m) ∧
    diatomicSetPhase setPhaseSolid setPhaseLiquid setPhaseGas
        markSafeAndSyncPositions stepFn PhaseID.gas m
      = markSafeAndSyncPositions (setPhaseGas m) :=
  ⟨rfl, rfl, rfl, rfl, rfl, rfl⟩

/-- C8: MultipleParticleModel.setTemperature clamps the temperature
set-point property into [MIN_TEMPERATURE, MAX_TEMPERATURE] = [0.00001, 50],
but assigns the unclamped argument to both thermostats' targetTemperature
fields, so the thermostat targets can lie outside the range enforced on the
set-point property. -/
theorem setTemperature_clamps_only_setpoint (m : Model) (t : ℚ) :
    ((m.setTemperature t).temperatureSetPoint
        = if MAX_TEMPERATURE < t then MAX_TEMPERATURE
          else if t < MIN_TEMPERATURE then MIN_TEMPERATURE else t) ∧
    MIN_TEMPERATURE ≤ (m.setTemperature t).temperatureSetPoint ∧
    (m.setTemperature t).temperatureSetPoint ≤ MAX_TEMPERATURE ∧
    (m.setTemperature t).isoKineticThermostat.targetTemperature = t ∧
    (m.setTemperature t).andersenThermostat.targetTemperature = t := by
  refine ⟨rfl, ?_, ?_, rfl, rfl⟩
  · show MIN_TEMPERATURE ≤
      (if MAX_TEMPERATURE < t then MAX_TEMPERATURE
       else if t < MIN_TEMPERATURE then MIN_TEMPERATURE else t)
    split_ifs with h1 h2
    · norm_num [MIN_TEMPERATURE, MAX_TEMPERATURE]
    · exact le_refl _
    · exact le_of_not_lt h2
  · show (if MAX_TEMPERATURE < t then MAX_TEMPERATURE
       else if t < MIN_TEMPERATURE then MIN_TEMPERATURE else t)
      ≤ MAX_TEMPERATURE
    split_ifs with h1 h2
    · exact le_refl _
    · norm_num [MIN_TEMPERATURE, MAX_TEMPERATURE]
    · exact le_of_not_lt h1

/-- C10: getTemperatureInKelvin returns null exactly when the particles
array is empty; with particles present it returns exactly 0 at or below the
minimum model temperature, and between the minimum model temperature and the
substance's triple point it never returns a value below 0.5 Kelvin. -/
theorem getTemperatureInKelvin_spec (env : Env) (m : Model) :
    (Model.getTemperatureInKelvin env m = none ↔ m.particles.length = 0) ∧
    (m.particles.length ≠ 0 → m.temperatureSetPoint ≤ m.minModelTemperature →
      Model.getTemperatureInKelvin env m = some 0) ∧
    (m.particles.length ≠ 0 →
      m.minModelTemperature < m.temperatureSetPoint →
      m.temperatureSetPoint
          < (env.tempConsts m.substance).triplePointInModelUnits →
      ∃ k, Model.getTemperatureInKelvin env m = some k ∧ (1 : ℚ) / 2 ≤ k) := by
  refine ⟨?_, ?_, ?_⟩
  · by_cases h : m.particles.length = 0
    · simp [Model.getTemperatureInKelvin, h]
    · simp [Model.getTemperatureInKelvin, h]
  · intro hne hle
    simp only [Model.getTemperatureInKelvin, if_neg hne, if_pos hle]
  · intro hne hgt hlt
    simp only [Model.getTemperatureInKelvin, if_neg hne,
      if_neg (not_le.mpr hgt), if_pos hlt]
    by_cases hc : m.temperatureSetPoint *
        (env.tempConsts m.substance).triplePointInKelvin /
        (env.tempConsts m.substance).triplePointInModelUnits < 0.5
    · exact ⟨0.5, by rw [if_pos hc], by norm_num⟩
    · refine ⟨_, by rw [if_neg hc], ?_⟩
      have := le_of_not_lt hc
      linarith

/-- Witness for C10: the sample model has one particle, a set-point strictly
between the minimum model temperature and the triple point, and reports a
Kelvin temperature of at least 0.5. -/
theorem getTemperatureInKelvin_spec_witness :
    exampleModel.particles.length ≠ 0 ∧
    exampleModel.minModelTemperature < exampleModel.temperatureSetPoint ∧
    exampleModel.temperatureSetPoint
      < (defaultEnv.tempConsts exampleModel.substance).triplePointInModelUnits ∧
    ∃ k, Model.getTemperatureInKelvin defaultEnv exampleModel = some k ∧
      (1 : ℚ) / 2 ≤ k := by
  refine ⟨by norm_num [exampleModel], by norm_num [exampleModel],
    by norm_num [exampleModel, defaultEnv], ?_⟩
  exact (getTemperatureInKelvin_spec defaultEnv exampleModel).2.2
    (by norm_num [exampleModel]) (by norm_num [exampleModel])
    (by norm_num [exampleModel, defaultEnv])

/-- Witness for C5 at two molecules 10 normalized units apart. -/
theorem far_pair_contributes_nothing_witness :
    (PARTICLE_INTERACTION_DISTANCE_THRESH_SQRD ≤
      (let pI := ([(⟨0, 0⟩ : Vec2 ℚ), ⟨10, 0⟩]).getD 0 ⟨0, 0⟩
       let pJ := ([(⟨0, 0⟩ : Vec2 ℚ), ⟨10, 0⟩]).getD 1 ⟨0, 0⟩
       (pI.x - pJ.x) * (pI.x - pJ.x) + (pI.y - pJ.y) * (pI.y - pJ.y))) ∧
    applyPairForce 1 [⟨0, 0⟩, ⟨10, 0⟩] [⟨0, 0⟩, ⟨0, 0⟩] (0, 1)
      = [⟨0, 0⟩, ⟨0, 0⟩] :=
  ⟨by norm_num [PARTICLE_INTERACTION_DISTANCE_THRESH_SQRD],
    (far_pair_contributes_nothing 1 [⟨0, 0⟩, ⟨10, 0⟩] [⟨0, 0⟩, ⟨0, 0⟩] 0 1
      (by norm_num [PARTICLE_INTERACTION_DISTANCE_THRESH_SQRD])).2⟩

/-! ### Large-dt frame-drop behavior -/

theorem monatomicUpdateForcesAndMotion_height (env : Env) (m : Model)
    (ts : ℚ) :
    (Model.monatomicUpdateForcesAndMotion env m ts).particleContainerHeight
      = m.particleContainerHeight := rfl

theorem engineIterate_height (env : Env) (ts : ℚ) (n : ℕ) :
    ∀ mm : Model,
      (((fun x => Model.monatomicUpdateForcesAndMotion env x ts)^[n])
          mm).particleContainerHeight
        = mm.particleContainerHeight := by
  induction n with
  | zero => intro mm; rfl
  | succ k ih =>
    intro mm
    rw [Function.iterate_succ_apply, ih]
    exact monatomicUpdateForcesAndMotion_height env mm ts

theorem syncParticlePositions_height (m : Model) :
    m.syncParticlePositions.particleContainerHeight
      = m.particleContainerHeight := rfl

theorem injectMoleculeInternal_height (env : Env) (m : Model) :
    (Model.injectMoleculeInternal env m).particleContainerHeight
      = m.particleContainerHeight := by
  simp only [Model.injectMoleculeInternal]
  split_ifs <;> rfl

theorem injectionStage_height (env : Env) (m : Model) (dt : ℚ) :
    (Model.injectionStage env m dt).particleContainerHeight
      = m.particleContainerHeight := by
  simp only [Model.injectionStage]
  split_ifs with h1 h2
  · show (Model.injectMoleculeInternal env m).particleContainerHeight = _
    exact injectMoleculeInternal_height env m
  · rfl
  · rfl

theorem runThermostat_height (env : Env) (m : Model) :
    (Model.runThermostat env m).particleContainerHeight
      = m.particleContainerHeight := by
  simp only [Model.runThermostat]
  split_ifs <;> rfl

theorem refreshPressureDisplay_height (m : Model) (p : ℚ) :
    (Model.refreshPressureDisplay m p).particleContainerHeight
      = m.particleContainerHeight := by
  simp only [Model.refreshPressureDisplay]
  split_ifs <;> rfl

theorem adjustTemperatureSetPoint_height (env : Env) (m : Model) (dt : ℚ) :
    (Model.adjustTemperatureSetPoint env m dt).particleContainerHeight
      = m.particleContainerHeight := by
  simp only [Model.adjustTemperatureSetPoint]
  split_ifs <;> rfl

theorem adjustContainerHeight_exploded (m : Model) (dt : ℚ)
    (hexp : m.isExploded = true)
    (hlt : m.particleContainerHeight < PARTICLE_CONTAINER_INITIAL_HEIGHT * 3) :
    (m.adjustContainerHeight dt).particleContainerHeight
      = m.particleContainerHeight +
        POST_EXPLOSION_CONTAINER_EXPANSION_RATE * dt := by
  simp only [Model.adjustContainerHeight, hexp]
  rw [if_neg (by simp), if_pos (show ({ m with heightChangeThisStep :=
      POST_EXPLOSION_CONTAINER_EXPANSION_RATE * dt } : Model).particleContainerHeight
      < PARTICLE_CONTAINER_INITIAL_HEIGHT * 3 from hlt)]

theorem stepInternal_exploded_height (env : Env) (m : Model) (dt : ℚ)
    (hexp : m.isExploded = true)
    (hlt : m.particleContainerHeight < PARTICLE_CONTAINER_INITIAL_HEIGHT * 3) :
    (Model.stepInternal env m dt).particleContainerHeight
      = m.particleContainerHeight +
        POST_EXPLOSION_CONTAINER_EXPANSION_RATE * dt := by
  simp only [Model.stepInternal]
  rw [adjustTemperatureSetPoint_height, refreshPressureDisplay_height,
    runThermostat_height, syncParticlePositions_height, engineIterate_height,
    injectionStage_height]
  exact adjustContainerHeight_exploded
    { m with particleInjectedThisStep := false } dt hexp hlt

/-- Counterexample to C3: MultipleParticleModel.step has no guard on dt.
With the container exploded and the model playing, a call with dt = 2 > 1
changes the model state (the container height grows by 18000), so the step
is not dropped. -/
theorem mpm_step_large_dt_not_dropped :
    (1 : ℚ) < 2 ∧
    Model.step defaultEnv { exampleModel with isExploded := true } 2
      ≠ { exampleModel with isExploded := true } := by
  refine ⟨by norm_num, ?_⟩
  intro hEq
  have hstep : Model.step defaultEnv { exampleModel with isExploded := true } 2
      = Model.stepInternal defaultEnv
          { exampleModel with isExploded := true } 2 := by
    simp only [Model.step]
    rw [if_pos (show ({ exampleModel with isExploded := true } : Model).isPlaying
      = true from rfl)]
  have hh := stepInternal_exploded_height defaultEnv
    { exampleModel with isExploded := true } 2 rfl
    (by norm_num [exampleModel, PARTICLE_CONTAINER_INITIAL_HEIGHT])
  rw [hstep] at hEq
  have hproj := congrArg Model.particleContainerHeight hEq
  rw [hh] at hproj
  norm_num [exampleModel, POST_EXPLOSION_CONTAINER_EXPANSION_RATE] at hproj

/-- Amended C3: the dt > 1 frame-drop is implemented in DualAtomModel.step,
which returns without touching any state when the simulation time step
exceeds one second; MultipleParticleModel.step has no such guard and runs
stepInternal for any dt whenever the simulation is playing. -/
theorem large_dt_drop_located_in_dual_atom_model :
    (∀ (env : Env) (s : DualAtomModelState) (dt : ℚ), 1 < dt →
      DualAtomModelState.step env s dt = s) ∧
    (∀ (env : Env) (m : Model) (dt : ℚ), m.isPlaying = true →
      Model.step env m dt = Model.stepInternal env m dt) := by
  constructor
  · intro env s dt h
    simp only [DualAtomModelState.step]
    rw [if_pos h]
  · intro env m dt h
    simp only [Model.step]
    rw [if_pos h]

/-- Witness for the amended C3 at dt = 2 on concrete states. -/
theorem large_dt_drop_located_in_dual_atom_model_witness :
    ((1 : ℚ) < 2 ∧
      DualAtomModelState.step defaultEnv exampleDualState 2
        = exampleDualState) ∧
    (exampleModel.isPlaying = true ∧
      Model.step defaultEnv exampleModel 2
        = Model.stepInternal defaultEnv exampleModel 2) :=
  ⟨⟨by norm_num, large_dt_drop_located_in_dual_atom_model.1 defaultEnv
      exampleDualState 2 (by norm_num)⟩,
    ⟨rfl, large_dt_drop_located_in_dual_atom_model.2 defaultEnv
      exampleModel 2 rfl⟩⟩

end StatesOfMatter
